import Mathlib

/-!
# XMODEM-over-UART communication core of the Z-Wave bootloader

Shallow embedding of
`platform/bootloader/communication/xmodem-uart/btl_comm_xmodem_common.c`.

* Bytes (`uint8_t`) are natural numbers; `int32_t`/`int` values are integers.
* One iteration of the `while (1) { switch (state) ... }` loop of
  `bootloader_xmodem_communication_main` is the function `mainStep`; the locals of the
  function form the record `Machine`.
* Everything the loop body obtains from its collaborators during one iteration (UART
  reception, timer expiry, return values of driver calls, whether a reset or commit call
  comes back) is supplied by a record `Input`; the image parser and the packet codec,
  which keep state of their own, are functions of a record `Env` over abstract state types.
* Every call with an outward effect (UART transmission, flush, codec, parser, flash,
  commit, reset) is recorded in a trace of `Action`s.  Timer services
  (`delay_init`, `delay_milliseconds`, `delay_expired`) and `uart_getRxAvailableBytes`
  have no outward effect and appear only through `Input`.
* Constants and build switches that are declared in headers outside this file are the
  fields of the record `Constants`.
-/

namespace XmodemUart

/-! ## Data model -/

/-- States of the transfer state machine (the enumerators of `XmodemState_t` used by the
switch in `bootloader_xmodem_communication_main`). -/
inductive XmodemState_t
  | MENU
  | IDLE
  | INIT_TRANSFER
  | WAIT_FOR_DATA
  | RECEIVE_DATA
  | COMPLETE
  | BOOT
  | CONFIRM_ERASE_NVM
  | ERASE_NVM
  deriving DecidableEq, Repr

/-- Reset reasons passed to `reset_resetWithReason` by this file. -/
inductive ResetReason
  | BOOTLOADER_RESET_REASON_GO
  | BOOTLOADER_RESET_REASON_TIMEOUT
  | BOOTLOADER_RESET_REASON_BADIMAGE
  deriving DecidableEq, Repr

/-- Constants and build switches used by the file but declared in headers that are not part
of it.  The `XMODEM_CMD_*` values are bytes; the `BOOTLOADER_*` values are `int32_t` status
codes; `BOOTLOADER_NONSECURE` and `SE_PRESENT` stand for the preprocessor conditions
`defined(BOOTLOADER_NONSECURE)` and
`defined(SEMAILBOX_PRESENT) || defined(CRYPTOACC_PRESENT)`. -/
structure Constants where
  XMODEM_CMD_SOH : Nat
  XMODEM_CMD_ACK : Nat
  XMODEM_CMD_NAK : Nat
  XMODEM_CMD_CAN : Nat
  XMODEM_CMD_C : Nat
  BOOTLOADER_OK : Int
  BOOTLOADER_ERROR_COMMUNICATION_ERROR : Int
  BOOTLOADER_ERROR_XMODEM_BASE : Int
  BOOTLOADER_ERROR_PARSER_BASE : Int
  BOOTLOADER_ERROR_XMODEM_NO_SOH : Int
  BOOTLOADER_ERROR_XMODEM_PKTNUM : Int
  BOOTLOADER_ERROR_XMODEM_CRCL : Int
  BOOTLOADER_ERROR_XMODEM_CRCH : Int
  BOOTLOADER_ERROR_XMODEM_DONE : Int
  BOOTLOADER_ERROR_XMODEM_PKTSEQ : Int
  BOOTLOADER_ERROR_XMODEM_PKTDUP : Int
  BOOTLOADER_ERROR_PARSER_VERSION : Int
  BOOTLOADER_ERROR_PARSER_CRC : Int
  BOOTLOADER_ERROR_PARSER_UNKNOWN_TAG : Int
  BOOTLOADER_ERROR_PARSER_SIGNATURE : Int
  BOOTLOADER_ERROR_PARSER_FILETYPE : Int
  BOOTLOADER_ERROR_PARSER_UNEXPECTED : Int
  BOOTLOADER_ERROR_PARSER_EOF : Int
  BOOTLOADER_ERROR_PARSER_KEYERROR : Int
  BTL_IMAGE_CONTENT_SE : Nat
  BTL_IMAGE_CONTENT_BOOTLOADER : Nat
  PARSER_FLAG_PARSE_CUSTOM_TAGS : Nat
  BTL_XMODEM_IDLE_TIMEOUT : Int
  FLASH_PAGE_SIZE : Nat
  BOOTLOADER_NONSECURE : Bool
  SE_PRESENT : Bool

/-- The members of `ImageProperties_t` that this file reads or writes. -/
structure ImageProperties_t where
  contents : Nat
  instructions : Nat
  imageCompleted : Bool
  imageVerified : Bool
  bootloaderVersion : Nat
  seUpgradeVersion : Nat
  bootloaderUpgradeSize : Nat
  deriving DecidableEq, Repr

/-- Calls with an outward effect, in the order in which the code makes them. -/
inductive Action
  | uart_sendByte (byte : Nat)
  | uart_sendBuffer (buffer : List Nat)
  | uart_flush
  | parser_init (flags : Nat)
  | xmodem_reset
  | xmodem_parsePacket (packet : List Nat)
  | parser_parse (data : List Nat)
  | bootload_commitSeUpgrade
  | bootload_commitBootloaderUpgrade (size : Nat)
  | reset_resetWithReason (reason : ResetReason)
  | flash_erasePage (pageAddress : Nat)
  | flash_writeBuffer (address : Nat) (data : List Nat)
  deriving DecidableEq, Repr

/-- What the collaborators deliver during one iteration of the main loop.

* `command`: outcome of `uart_receiveByteTimeout` in `getAction`; `none` when its return
  value differs from `BOOTLOADER_OK`, otherwise the byte stored in `c`.
* `rxAvailable`: whether `uart_getRxAvailableBytes()` is non-zero where the code tests it
  after waiting (the 5 ms wait of `INIT_TRANSFER`, the 1000 ms wait of `WAIT_FOR_DATA`,
  the 3000 ms wait of `receivePacket`).
* `first`: the byte stored by the one-byte `uart_receiveBuffer` call of `receivePacket`
  (`none` when it stores nothing).
* `body`, `bodyRet`: the bytes stored by, and the return value of, the second
  `uart_receiveBuffer` call of `receivePacket`.
* `sendRet n`: the return value of the `n`-th `uart_sendByte` call of a `sendPacket` call.
* `callReturns`: whether the reset or commit call made in this iteration (if any) comes
  back to the caller. -/
structure Input where
  command : Option Nat
  rxAvailable : Bool
  first : Option Nat
  body : List Nat
  bodyRet : Int
  sendRet : Nat → Int
  callReturns : Bool

/-- The packet codec, the image parser and the version queries, over an abstract codec
state `C` and an abstract parser context `P` (the latter stands for `parserContext`,
`decryptContext` and `authContext` together).

* `xmodem_parsePacket c packet response` gives the return value, the content of
  `response` after the call (the code passes `&response`) and the new codec state.
* `parser_parse p props data length` gives the return value, the new parser context and
  the new image properties. -/
structure Env (C P : Type) where
  xmodem_reset : C → C
  xmodem_parsePacket : C → List Nat → Nat → Int × Nat × C
  parser_init : P → Nat → P
  parser_parse : P → ImageProperties_t → List Nat → Nat → Int × P × ImageProperties_t
  bootload_checkSeUpgradeVersion : Nat → Bool
  bootload_getBootloaderVersion : Nat

/-- Whether control is still inside the main loop: `exited` after a reset or commit call
that did not return, `hung` when the page-erase loop of `ERASE_NVM` never terminates. -/
inductive Status
  | running
  | exited
  | hung
  deriving DecidableEq, Repr

/-- The locals of `bootloader_xmodem_communication_main`, the image properties it is
handed, the collaborators' states and the flash content. -/
structure Machine (C P : Type) where
  state : XmodemState_t
  ret : Int
  response : Nat
  confirm_erase : Bool
  packetTimeout : Int
  idleTimeout : Int
  imageProps : ImageProperties_t
  parserContext : P
  xmodem : C
  flash : Nat → Nat
  status : Status

/-! ## Static data -/

/-- A C character array initialised from a string literal: the characters followed by the
terminating NUL (the code always sends `sizeof` bytes). -/
def cstr (s : String) : List Nat :=
  s.toList.map Char.toNat ++ [0]

def transferInitStr : List Nat := cstr "\r\nbegin upload\r\n"

def transferCompleteStr : List Nat := cstr "\r\nSerial upload complete\r\n"

def transferAbortedStr : List Nat := cstr "\r\nSerial upload aborted\r\n"

def xmodemError : List Nat := cstr "\r\nblock error 0x"

def fileError : List Nat := cstr "\r\nfile error 0x"

def bootError : List Nat := cstr "\r\nFailed to boot\r\n"

/-- Modelled from the spec: the macro `XMODEM_DATA_SIZE` (header not part of this file);
the frame carries 128 bytes of payload. -/
def XMODEM_DATA_SIZE : Nat := 128

/-- Modelled from the spec: `sizeof(XmodemPacket_t)` (type declared in a header not part of
this file); the frame is
`[start-of-frame][sequence][255-sequence][128 bytes payload][2-byte checksum]`. -/
def sizeof_XmodemPacket_t : Nat := 1 + 1 + 1 + XMODEM_DATA_SIZE + 2

/-- Modelled from the spec: member `header` of `XmodemPacket_t`, the first byte of the
frame. -/
def XmodemPacket_t.header (buf : List Nat) : Nat :=
  buf.getD 0 0

/-- Modelled from the spec: member `data` of `XmodemPacket_t`, the 128 payload bytes that
follow the three leading bytes of the frame. -/
def XmodemPacket_t.data (buf : List Nat) : List Nat :=
  (buf.drop 3).take XMODEM_DATA_SIZE

/-- Storing `bytes` into a buffer from offset `off` on. -/
def storeAt (buf : List Nat) (off : Nat) (bytes : List Nat) : List Nat :=
  buf.take off ++ bytes ++ buf.drop (off + bytes.length)

/-! ## Static local functions -/

/-- Function `sendPacket`: one `uart_sendByte`, and two more when the byte is
`XMODEM_CMD_CAN`; the value returned is that of the first call. -/
def sendPacket (k : Constants) (sendRet : Nat → Int) (packet : Nat) : Int × List Action :=
  let ret := sendRet 0
  if packet = k.XMODEM_CMD_CAN then
    (ret, [Action.uart_sendByte packet, Action.uart_sendByte packet,
      Action.uart_sendByte packet])
  else
    (ret, [Action.uart_sendByte packet])

/-- Function `receivePacket`, applied to the (zeroed) packet buffer: the return value and
the buffer after the call. -/
def receivePacket (k : Constants) (i : Input) (buf : List Nat) : Int × List Nat :=
  if i.rxAvailable = false then
    (k.BOOTLOADER_ERROR_COMMUNICATION_ERROR, buf)
  else
    let buf1 := storeAt buf 0 (i.first.toList.take 1)
    if XmodemPacket_t.header buf1 ≠ k.XMODEM_CMD_SOH then
      (k.BOOTLOADER_OK, buf1)
    else
      let requestedBytes := sizeof_XmodemPacket_t - 1
      let received := i.body.take requestedBytes
      let buf2 := storeAt buf1 1 received
      if received.length ≠ requestedBytes then
        (k.BOOTLOADER_ERROR_COMMUNICATION_ERROR, buf2)
      else
        (i.bodyRet, buf2)

/-- Function `getAction`: the next state chosen from the command byte (49 = '1', 50 = '2',
51 = '3', 52 = '4', 121 = 'y') and what it transmits. -/
def getAction (confirm_erase : Bool) (command : Option Nat) : XmodemState_t × List Action :=
  match command with
  | none => (XmodemState_t.IDLE, [])
  | some c =>
    if c = 49 then (XmodemState_t.INIT_TRANSFER, [])
    else if c = 50 then (XmodemState_t.BOOT, [])
    else if c = 51 then (XmodemState_t.MENU, [])
    else if c = 52 then
      (XmodemState_t.CONFIRM_ERASE_NVM,
        [Action.uart_sendBuffer (cstr "\r\nAre you sure? (y/n) > ")])
    else if c = 121 then
      if confirm_erase then (XmodemState_t.ERASE_NVM, []) else (XmodemState_t.MENU, [])
    else (XmodemState_t.MENU, [])

/-- Function `nibbleToHex` (65 = 'A', 48 = '0'); the result is a `uint8_t`. -/
def nibbleToHex (nibble : Nat) : Nat :=
  if nibble > 9 then (nibble - 10 + 65) % 256 else (nibble + 48) % 256

/-! ## Global functions -/

/-- Function `bootloader_xmodem_communication_start`: the menu text with the version
digits patched in, sent with its terminating NUL. -/
def bootloader_xmodem_communication_start (version : Nat) : Int × List Action :=
  let str := cstr
    "\r\nGecko Bootloader vX.YY.ZZ\r\n1. upload gbl\r\n2. run\r\n3. ebl info\r\n4. erase nvm\r\nBL > "
  let str := str.set 20 (nibbleToHex ((version >>> 24) &&& 0x0F))
  let str := str.set 22 ((((version >>> 16) &&& 0x0F) / 10 + 48) % 256)
  let str := str.set 23 ((((version >>> 16) &&& 0x0F) % 10 + 48) % 256)
  let str := str.set 25 (((version &&& 0x0F) / 10 + 48) % 256)
  let str := str.set 26 (((version &&& 0x0F) % 10 + 48) % 256)
  (0, [Action.uart_sendBuffer str])

/-- A call that normally does not come back (reset, upgrade commit) with nothing but
transmissions after it: when it comes back, `after` is performed; when it does not, control
has left the loop. -/
def callNoReturn {C P : Type} (m : Machine C P) (i : Input) (call : Action)
    (after : List Action) : Machine C P × List Action :=
  if i.callReturns then (m, call :: after)
  else ({ m with status := Status.exited }, [call])

/-- Case `MENU`. -/
def stepMENU {C P : Type} (e : Env C P) (m : Machine C P) : Machine C P × List Action :=
  ({ m with state := XmodemState_t.IDLE },
    (bootloader_xmodem_communication_start e.bootload_getBootloaderVersion).2)

/-- Case `IDLE`. -/
def stepIDLE {C P : Type} (k : Constants) (m : Machine C P) (i : Input) :
    Machine C P × List Action :=
  let a := getAction m.confirm_erase i.command
  if 0 < k.BTL_XMODEM_IDLE_TIMEOUT then
    if a.1 = XmodemState_t.IDLE then
      let idleTimeout := m.idleTimeout - 1
      if idleTimeout = 0 then
        if i.callReturns then
          ({ m with state := a.1, idleTimeout := idleTimeout, packetTimeout := 60 },
            a.2 ++ [Action.reset_resetWithReason ResetReason.BOOTLOADER_RESET_REASON_TIMEOUT])
        else
          ({ m with state := a.1, idleTimeout := idleTimeout, status := Status.exited },
            a.2 ++ [Action.reset_resetWithReason ResetReason.BOOTLOADER_RESET_REASON_TIMEOUT])
      else
        ({ m with state := a.1, idleTimeout := idleTimeout, packetTimeout := 60 }, a.2)
    else
      ({ m with state := a.1, idleTimeout := k.BTL_XMODEM_IDLE_TIMEOUT, packetTimeout := 60 },
        a.2)
  else
    ({ m with state := a.1, packetTimeout := 60 }, a.2)

/-- The image properties after `memset` and the assignments of case `INIT_TRANSFER`. -/
def freshImageProps (k : Constants) : ImageProperties_t :=
  { contents := 0
    instructions := if k.BOOTLOADER_NONSECURE then 0 else 0xFF
    imageCompleted := false
    imageVerified := false
    bootloaderVersion := 0
    seUpgradeVersion := 0
    bootloaderUpgradeSize := 0 }

/-- Case `INIT_TRANSFER`. -/
def stepINIT_TRANSFER {C P : Type} (k : Constants) (e : Env C P) (m : Machine C P)
    (i : Input) : Machine C P × List Action :=
  ({ m with
      imageProps := freshImageProps k
      parserContext := e.parser_init m.parserContext k.PARSER_FLAG_PARSE_CUSTOM_TAGS
      xmodem := e.xmodem_reset m.xmodem
      state := XmodemState_t.WAIT_FOR_DATA },
    [Action.uart_sendBuffer transferInitStr,
      Action.parser_init k.PARSER_FLAG_PARSE_CUSTOM_TAGS]
    ++ (if i.rxAvailable then [Action.uart_flush] else [])
    ++ [Action.xmodem_reset])

/-- Case `WAIT_FOR_DATA`. -/
def stepWAIT_FOR_DATA {C P : Type} (k : Constants) (m : Machine C P) (i : Input) :
    Machine C P × List Action :=
  let ready := (sendPacket k i.sendRet k.XMODEM_CMD_C).2
  if i.rxAvailable then
    ({ m with state := XmodemState_t.RECEIVE_DATA }, ready)
  else
    let packetTimeout := m.packetTimeout - 1
    if packetTimeout = 0 then
      ({ m with packetTimeout := packetTimeout, state := XmodemState_t.MENU },
        ready ++ (sendPacket k i.sendRet k.XMODEM_CMD_CAN).2)
    else
      ({ m with packetTimeout := packetTimeout }, ready)

/-- Case `RECEIVE_DATA`. -/
def stepRECEIVE_DATA {C P : Type} (k : Constants) (e : Env C P) (m : Machine C P)
    (i : Input) : Machine C P × List Action :=
  let r := receivePacket k i (List.replicate sizeof_XmodemPacket_t 0)
  if r.1 ≠ k.BOOTLOADER_OK then
    ({ m with ret := r.1, response := k.XMODEM_CMD_NAK },
      (sendPacket k i.sendRet k.XMODEM_CMD_NAK).2)
  else
    let c := e.xmodem_parsePacket m.xmodem r.2 m.response
    let done : Bool := decide (c.1 = k.BOOTLOADER_ERROR_XMODEM_DONE)
    let state1 := if done then XmodemState_t.COMPLETE else m.state
    let response1 :=
      if done && (!m.imageProps.imageCompleted || !m.imageProps.imageVerified) then
        k.XMODEM_CMD_CAN
      else c.2.1
    if c.1 = k.BOOTLOADER_OK ∧ XmodemPacket_t.header r.2 = k.XMODEM_CMD_SOH then
      let p := e.parser_parse m.parserContext m.imageProps (XmodemPacket_t.data r.2)
        XMODEM_DATA_SIZE
      let response2 := if p.1 ≠ k.BOOTLOADER_OK then k.XMODEM_CMD_CAN else response1
      let state2 := if response2 = k.XMODEM_CMD_CAN then XmodemState_t.COMPLETE else state1
      ({ m with
          ret := p.1
          response := response2
          state := state2
          xmodem := c.2.2
          parserContext := p.2.1
          imageProps := p.2.2 },
        [Action.xmodem_parsePacket r.2, Action.parser_parse (XmodemPacket_t.data r.2)]
        ++ (sendPacket k i.sendRet response2).2)
    else
      let state2 := if response1 = k.XMODEM_CMD_CAN then XmodemState_t.COMPLETE else state1
      ({ m with ret := c.1, response := response1, state := state2, xmodem := c.2.2 },
        [Action.xmodem_parsePacket r.2] ++ (sendPacket k i.sendRet response1).2)

/-- The `switch (ret)` of case `COMPLETE`: the status byte stored in `response`, which
keeps its value when no label matches.  (C requires the case labels to be pairwise
distinct, so testing them in order is the switch.) -/
def statusByte (k : Constants) (ret : Int) (response : Nat) : Nat :=
  if ret = k.BOOTLOADER_ERROR_XMODEM_NO_SOH then 0x21
  else if ret = k.BOOTLOADER_ERROR_XMODEM_PKTNUM then 0x22
  else if ret = k.BOOTLOADER_ERROR_XMODEM_CRCL then 0x23
  else if ret = k.BOOTLOADER_ERROR_XMODEM_CRCH then 0x24
  else if ret = k.BOOTLOADER_ERROR_XMODEM_PKTSEQ then 0x25
  else if ret = k.BOOTLOADER_ERROR_XMODEM_PKTDUP then 0x27
  else if ret = k.BOOTLOADER_ERROR_PARSER_VERSION then 0x41
  else if ret = k.BOOTLOADER_ERROR_PARSER_CRC then 0x43
  else if ret = k.BOOTLOADER_ERROR_PARSER_UNKNOWN_TAG then 0x44
  else if ret = k.BOOTLOADER_ERROR_PARSER_SIGNATURE then 0x45
  else if ret = k.BOOTLOADER_ERROR_PARSER_FILETYPE then 0x4F
  else if ret = k.BOOTLOADER_ERROR_PARSER_UNEXPECTED then 0x4F
  else if ret = k.BOOTLOADER_ERROR_PARSER_EOF then 0x4F
  else if ret = k.BOOTLOADER_ERROR_PARSER_KEYERROR then 0x50
  else response

/-- Case `COMPLETE` (13 = '\r', 10 = '\n'). -/
def stepCOMPLETE {C P : Type} (k : Constants) (m : Machine C P) : Machine C P × List Action :=
  if m.response = k.XMODEM_CMD_ACK ∧ m.ret = k.BOOTLOADER_ERROR_XMODEM_DONE then
    ({ m with state := XmodemState_t.MENU },
      [Action.uart_flush, Action.uart_sendBuffer transferCompleteStr])
  else
    let response := statusByte k m.ret m.response
    ({ m with response := response, state := XmodemState_t.MENU },
      [Action.uart_flush, Action.uart_sendBuffer transferAbortedStr,
        Action.uart_sendBuffer
          (if k.BOOTLOADER_ERROR_XMODEM_BASE ≤ m.ret ∧ m.ret < k.BOOTLOADER_ERROR_PARSER_BASE
            then xmodemError else fileError),
        Action.uart_sendByte (nibbleToHex (response >>> 4)),
        Action.uart_sendByte (nibbleToHex (response &&& 0x0F)),
        Action.uart_sendByte 13,
        Action.uart_sendByte 10])

/-- Case `BOOT`. -/
def stepBOOT {C P : Type} (k : Constants) (e : Env C P) (m : Machine C P) (i : Input) :
    Machine C P × List Action :=
  let m1 := { m with state := XmodemState_t.MENU }
  if m.imageProps.imageCompleted && m.imageProps.imageVerified then
    if k.SE_PRESENT && decide (m.imageProps.contents &&& k.BTL_IMAGE_CONTENT_SE ≠ 0) then
      if e.bootload_checkSeUpgradeVersion m.imageProps.seUpgradeVersion then
        callNoReturn m1 i Action.bootload_commitSeUpgrade []
      else
        (m1, [])
    else if m.imageProps.contents &&& k.BTL_IMAGE_CONTENT_BOOTLOADER ≠ 0 then
      if m.imageProps.bootloaderVersion > e.bootload_getBootloaderVersion then
        callNoReturn m1 i
          (Action.bootload_commitBootloaderUpgrade m.imageProps.bootloaderUpgradeSize)
          [Action.uart_sendBuffer bootError]
      else
        (m1, [Action.uart_sendBuffer bootError])
    else
      callNoReturn m1 i
        (Action.reset_resetWithReason ResetReason.BOOTLOADER_RESET_REASON_GO)
        [Action.uart_sendBuffer bootError]
  else
    callNoReturn m1 i
      (Action.reset_resetWithReason ResetReason.BOOTLOADER_RESET_REASON_BADIMAGE) []

/-- Case `CONFIRM_ERASE_NVM`. -/
def stepCONFIRM_ERASE_NVM {C P : Type} (m : Machine C P) : Machine C P × List Action :=
  ({ m with confirm_erase := true, state := XmodemState_t.IDLE }, [])

/-! ## Flash -/

/-- Modelled from the spec: driver function `flash_erasePage` (not part of this file); flash
is a byte map and erasing sets the page that contains the address to 0xFF. -/
def flash_erasePage (pageSize : Nat) (flash : Nat → Nat) (address : Nat) : Nat → Nat :=
  fun a =>
    if address - address % pageSize ≤ a ∧ a < address - address % pageSize + pageSize then 0xFF
    else flash a

/-- Modelled from the spec: driver function `flash_writeBuffer` (not part of this file); it
stores the given bytes from the address on. -/
def flash_writeBuffer (flash : Nat → Nat) (address : Nat) (data : List Nat) : Nat → Nat :=
  fun a =>
    if address ≤ a ∧ a < address + data.length then data.getD (a - address) 0
    else flash a

/-- The bytes that `memcpy` reads from memory-mapped flash: `size` bytes from `address`. -/
def memcpyFromFlash (flash : Nat → Nat) (address size : Nat) : List Nat :=
  (List.range size).map (fun j => flash (address + j))

/-- The page loop `for (pageAddress = ...; pageAddress < limit; pageAddress += FLASH_PAGE_SIZE)`
of case `ERASE_NVM`, with `uint32_t` arithmetic: the flash content and the pages erased, or
`none` when the loop is still running after `fuel` iterations. -/
def erasePages (pageSize limit : Nat) :
    Nat → Nat → (Nat → Nat) → Option ((Nat → Nat) × List Action)
  | 0, _, _ => none
  | fuel + 1, pageAddress, flash =>
    if pageAddress < limit then
      match erasePages pageSize limit fuel ((pageAddress + pageSize) % 2 ^ 32)
          (flash_erasePage pageSize flash pageAddress) with
      | none => none
      | some r => some (r.1, Action.flash_erasePage pageAddress :: r.2)
    else
      some (flash, [])

def nvm_address : Nat := 0x08074000

def nvm_size : Nat := 0x0000a000

def zpal_page_size : Nat := 0x00002000

def btl_enc_key_address : Nat := 0x0807e284

def btl_sign_key_address : Nat := 0x0807e34c

/-- First value of the loop variable: `nvm_address & ~(FLASH_PAGE_SIZE - 1UL)` in 32-bit
unsigned arithmetic. -/
def firstPage (k : Constants) : Nat :=
  nvm_address &&& (2 ^ 32 - 1 - (k.FLASH_PAGE_SIZE + (2 ^ 32 - 1)) % 2 ^ 32)

/-- Bound of the loop: `nvm_address + nvm_size + zpal_page_size` as a `uint32_t`. -/
def pageLimit : Nat :=
  (nvm_address + nvm_size + zpal_page_size) % 2 ^ 32

/-- The part of case `ERASE_NVM` around the page loop, for the outcome `pages` of the
loop: the two token ranges are copied from the flash content found at entry, written back
after the loop, the completion message is sent, the confirmation flag is cleared and the
state becomes `MENU`.  A loop that never ends leaves the machine hung. -/
def eraseAndRestore {C P : Type} (m : Machine C P)
    (pages : Option ((Nat → Nat) × List Action)) : Machine C P × List Action :=
  let btl_enc_key_data := memcpyFromFlash m.flash btl_enc_key_address 20
  let btl_sign_key_data := memcpyFromFlash m.flash btl_sign_key_address 64
  match pages with
  | none => ({ m with status := Status.hung }, [])
  | some r =>
    let flash1 := flash_writeBuffer r.1 btl_enc_key_address btl_enc_key_data
    let flash2 := flash_writeBuffer flash1 btl_sign_key_address btl_sign_key_data
    ({ m with flash := flash2, confirm_erase := false, state := XmodemState_t.MENU },
      r.2 ++ [Action.flash_writeBuffer btl_enc_key_address btl_enc_key_data,
        Action.flash_writeBuffer btl_sign_key_address btl_sign_key_data,
        Action.uart_sendBuffer (cstr "\r\nNVM erased\r\n")])

/-- Number of values of a `uint32_t`.  The loop variable of the page loop is a `uint32_t`,
so a loop that has not ended after this many iterations has revisited an address and never
ends. -/
def uint32Values : Nat := 2 ^ 32

/-- Case `ERASE_NVM`. -/
def stepERASE_NVM {C P : Type} (k : Constants) (m : Machine C P) : Machine C P × List Action :=
  eraseAndRestore m (erasePages k.FLASH_PAGE_SIZE pageLimit uint32Values (firstPage k) m.flash)

/-! ## The main loop -/

/-- One iteration of the `while (1)` loop of `bootloader_xmodem_communication_main`. -/
def mainStep {C P : Type} (k : Constants) (e : Env C P) (m : Machine C P) (i : Input) :
    Machine C P × List Action :=
  match m.status with
  | Status.exited => (m, [])
  | Status.hung => (m, [])
  | Status.running =>
    match m.state with
    | XmodemState_t.MENU => stepMENU e m
    | XmodemState_t.IDLE => stepIDLE k m i
    | XmodemState_t.INIT_TRANSFER => stepINIT_TRANSFER k e m i
    | XmodemState_t.WAIT_FOR_DATA => stepWAIT_FOR_DATA k m i
    | XmodemState_t.RECEIVE_DATA => stepRECEIVE_DATA k e m i
    | XmodemState_t.COMPLETE => stepCOMPLETE k m
    | XmodemState_t.BOOT => stepBOOT k e m i
    | XmodemState_t.CONFIRM_ERASE_NVM => stepCONFIRM_ERASE_NVM m
    | XmodemState_t.ERASE_NVM => stepERASE_NVM k m

/-- The locals of `bootloader_xmodem_communication_main` as initialised before the loop,
for the image properties, parser context, codec state and flash content found at entry. -/
def mainInit {C P : Type} (k : Constants) (imageProps : ImageProperties_t) (parserContext : P)
    (xmodem : C) (flash : Nat → Nat) : Machine C P :=
  { state := XmodemState_t.IDLE
    ret := -1
    response := 0
    confirm_erase := false
    packetTimeout := 60
    idleTimeout := k.BTL_XMODEM_IDLE_TIMEOUT
    imageProps := imageProps
    parserContext := parserContext
    xmodem := xmodem
    flash := flash
    status := Status.running }

/-- Iterating the loop body from machine `m`, one input record per iteration: the machine
reached and everything done on the way. -/
def runFrom {C P : Type} (k : Constants) (e : Env C P) (m : Machine C P) :
    List Input → Machine C P × List Action
  | [] => (m, [])
  | i :: is =>
    let s := mainStep k e m i
    let r := runFrom k e s.1 is
    (r.1, s.2 ++ r.2)

/-- Function `bootloader_xmodem_communication_main`, run for as many iterations as there
are input records. -/
def bootloader_xmodem_communication_main {C P : Type} (k : Constants) (e : Env C P)
    (imageProps : ImageProperties_t) (parserContext : P) (xmodem : C) (flash : Nat → Nat)
    (inputs : List Input) : Machine C P × List Action :=
  runFrom k e (mainInit k imageProps parserContext xmodem flash) inputs

/-! ## Sample instantiation, used to exhibit concrete runs -/

/-- A sample set of constants: the customary XMODEM control bytes, status codes grouped
by base value, an 8 KiB flash page, an idle budget of three polls, secure build with a
secure element. -/
def sampleConstants : Constants :=
  { XMODEM_CMD_SOH := 0x01
    XMODEM_CMD_ACK := 0x06
    XMODEM_CMD_NAK := 0x15
    XMODEM_CMD_CAN := 0x18
    XMODEM_CMD_C := 0x43
    BOOTLOADER_OK := 0
    BOOTLOADER_ERROR_COMMUNICATION_ERROR := 0x0703
    BOOTLOADER_ERROR_XMODEM_BASE := 0x0900
    BOOTLOADER_ERROR_PARSER_BASE := 0x1000
    BOOTLOADER_ERROR_XMODEM_NO_SOH := 0x0901
    BOOTLOADER_ERROR_XMODEM_PKTNUM := 0x0902
    BOOTLOADER_ERROR_XMODEM_CRCL := 0x0903
    BOOTLOADER_ERROR_XMODEM_CRCH := 0x0904
    BOOTLOADER_ERROR_XMODEM_DONE := 0x0905
    BOOTLOADER_ERROR_XMODEM_PKTSEQ := 0x0908
    BOOTLOADER_ERROR_XMODEM_PKTDUP := 0x0909
    BOOTLOADER_ERROR_PARSER_VERSION := 0x1009
    BOOTLOADER_ERROR_PARSER_CRC := 0x1005
    BOOTLOADER_ERROR_PARSER_UNKNOWN_TAG := 0x1008
    BOOTLOADER_ERROR_PARSER_SIGNATURE := 0x1006
    BOOTLOADER_ERROR_PARSER_FILETYPE := 0x100A
    BOOTLOADER_ERROR_PARSER_UNEXPECTED := 0x1001
    BOOTLOADER_ERROR_PARSER_EOF := 0x1007
    BOOTLOADER_ERROR_PARSER_KEYERROR := 0x1004
    BTL_IMAGE_CONTENT_SE := 0x02
    BTL_IMAGE_CONTENT_BOOTLOADER := 0x04
    PARSER_FLAG_PARSE_CUSTOM_TAGS := 0x01
    BTL_XMODEM_IDLE_TIMEOUT := 3
    FLASH_PAGE_SIZE := 0x2000
    BOOTLOADER_NONSECURE := false
    SE_PRESENT := true }

/-- Sample collaborators without state.  The codec answers a start-of-frame header with
(OK, ACK), the end-of-transmission byte 0x04 with (XMODEM_DONE, ACK) and anything else
with (XMODEM_NO_SOH, NAK); the parser returns `parseRet` and leaves the image properties as
they are; every secure-element version is accepted; the running bootloader has version 1. -/
def sampleEnv (parseRet : Int) : Env Unit Unit :=
  { xmodem_reset := fun c => c
    xmodem_parsePacket := fun c packet _ =>
      if XmodemPacket_t.header packet = sampleConstants.XMODEM_CMD_SOH then
        (sampleConstants.BOOTLOADER_OK, sampleConstants.XMODEM_CMD_ACK, c)
      else if XmodemPacket_t.header packet = 0x04 then
        (sampleConstants.BOOTLOADER_ERROR_XMODEM_DONE, sampleConstants.XMODEM_CMD_ACK, c)
      else
        (sampleConstants.BOOTLOADER_ERROR_XMODEM_NO_SOH, sampleConstants.XMODEM_CMD_NAK, c)
    parser_init := fun p _ => p
    parser_parse := fun p props _ _ => (parseRet, p, props)
    bootload_checkSeUpgradeVersion := fun _ => true
    bootload_getBootloaderVersion := 1 }

/-- The sample collaborators, except that no secure-element version is accepted. -/
def strictEnv : Env Unit Unit :=
  { sampleEnv 0 with bootload_checkSeUpgradeVersion := fun _ => false }

/-- An input record in which nothing arrives and calls that normally do not come back do
not come back. -/
def silence : Input :=
  { command := none
    rxAvailable := false
    first := none
    body := []
    bodyRet := 0
    sendRet := fun _ => 0
    callReturns := false }

/-- The command byte `c` is received by `getAction`. -/
def key (c : Nat) : Input :=
  { silence with command := some c }

/-- A single byte `b` is available to the receiver. -/
def byteIn (b : Nat) : Input :=
  { silence with rxAvailable := true, first := some b }

/-- A full frame is available to the receiver: header `b`, then `body`. -/
def frameIn (b : Nat) (body : List Nat) : Input :=
  { silence with rxAvailable := true, first := some b, body := body }

/-- Image properties with all members zero. -/
def zeroProps : ImageProperties_t :=
  { contents := 0
    instructions := 0
    imageCompleted := false
    imageVerified := false
    bootloaderVersion := 0
    seUpgradeVersion := 0
    bootloaderUpgradeSize := 0 }

/-- A sample machine in state `s` with the given image properties, over erased flash. -/
def sampleMachine (s : XmodemState_t) (props : ImageProperties_t) : Machine Unit Unit :=
  { state := s
    ret := -1
    response := 0
    confirm_erase := false
    packetTimeout := 60
    idleTimeout := 3
    imageProps := props
    parserContext := ()
    xmodem := ()
    flash := fun _ => 0xFF
    status := Status.running }

/-! ## Basic facts about the loop -/

theorem runFrom_nil {C P : Type} (k : Constants) (e : Env C P) (m : Machine C P) :
    runFrom k e m [] = (m, []) := rfl

theorem runFrom_cons {C P : Type} (k : Constants) (e : Env C P) (m : Machine C P)
    (i : Input) (is : List Input) :
    runFrom k e m (i :: is) =
      ((runFrom k e (mainStep k e m i).1 is).1,
        (mainStep k e m i).2 ++ (runFrom k e (mainStep k e m i).1 is).2) := rfl

theorem runFrom_append {C P : Type} (k : Constants) (e : Env C P) (m : Machine C P)
    (xs ys : List Input) :
    runFrom k e m (xs ++ ys) =
      ((runFrom k e (runFrom k e m xs).1 ys).1,
        (runFrom k e m xs).2 ++ (runFrom k e (runFrom k e m xs).1 ys).2) := by
  induction xs generalizing m with
  | nil => simp [runFrom_nil]
  | cons x xs ih => simp [runFrom_cons, ih, List.append_assoc]

theorem runFrom_snoc {C P : Type} (k : Constants) (e : Env C P) (m : Machine C P)
    (xs : List Input) (x : Input) :
    runFrom k e m (xs ++ [x]) =
      ((mainStep k e (runFrom k e m xs).1 x).1,
        (runFrom k e m xs).2 ++ (mainStep k e (runFrom k e m xs).1 x).2) := by
  rw [runFrom_append]
  simp [runFrom_cons, runFrom_nil]

theorem mainStep_not_running {C P : Type} (k : Constants) (e : Env C P) (m : Machine C P)
    (i : Input) (h : m.status ≠ Status.running) : mainStep k e m i = (m, []) := by
  unfold mainStep
  cases hs : m.status <;> simp_all

theorem mainStep_MENU {C P : Type} (k : Constants) (e : Env C P) (m : Machine C P)
    (i : Input) (hr : m.status = Status.running) (hs : m.state = XmodemState_t.MENU) :
    mainStep k e m i = stepMENU e m := by
  simp [mainStep, hr, hs]

theorem mainStep_IDLE {C P : Type} (k : Constants) (e : Env C P) (m : Machine C P)
    (i : Input) (hr : m.status = Status.running) (hs : m.state = XmodemState_t.IDLE) :
    mainStep k e m i = stepIDLE k m i := by
  simp [mainStep, hr, hs]

theorem mainStep_INIT_TRANSFER {C P : Type} (k : Constants) (e : Env C P) (m : Machine C P)
    (i : Input) (hr : m.status = Status.running)
    (hs : m.state = XmodemState_t.INIT_TRANSFER) :
    mainStep k e m i = stepINIT_TRANSFER k e m i := by
  simp [mainStep, hr, hs]

theorem mainStep_WAIT_FOR_DATA {C P : Type} (k : Constants) (e : Env C P) (m : Machine C P)
    (i : Input) (hr : m.status = Status.running)
    (hs : m.state = XmodemState_t.WAIT_FOR_DATA) :
    mainStep k e m i = stepWAIT_FOR_DATA k m i := by
  simp [mainStep, hr, hs]

theorem mainStep_RECEIVE_DATA {C P : Type} (k : Constants) (e : Env C P) (m : Machine C P)
    (i : Input) (hr : m.status = Status.running)
    (hs : m.state = XmodemState_t.RECEIVE_DATA) :
    mainStep k e m i = stepRECEIVE_DATA k e m i := by
  simp [mainStep, hr, hs]

theorem mainStep_COMPLETE {C P : Type} (k : Constants) (e : Env C P) (m : Machine C P)
    (i : Input) (hr : m.status = Status.running) (hs : m.state = XmodemState_t.COMPLETE) :
    mainStep k e m i = stepCOMPLETE k m := by
  simp [mainStep, hr, hs]

theorem mainStep_BOOT {C P : Type} (k : Constants) (e : Env C P) (m : Machine C P)
    (i : Input) (hr : m.status = Status.running) (hs : m.state = XmodemState_t.BOOT) :
    mainStep k e m i = stepBOOT k e m i := by
  simp [mainStep, hr, hs]

theorem mainStep_CONFIRM_ERASE_NVM {C P : Type} (k : Constants) (e : Env C P)
    (m : Machine C P) (i : Input) (hr : m.status = Status.running)
    (hs : m.state = XmodemState_t.CONFIRM_ERASE_NVM) :
    mainStep k e m i = stepCONFIRM_ERASE_NVM m := by
  simp [mainStep, hr, hs]

theorem mainStep_ERASE_NVM {C P : Type} (k : Constants) (e : Env C P) (m : Machine C P)
    (i : Input) (hr : m.status = Status.running) (hs : m.state = XmodemState_t.ERASE_NVM) :
    mainStep k e m i = stepERASE_NVM k m := by
  simp [mainStep, hr, hs]

/-! ## Transitions -/

theorem getAction_state (ce : Bool) (c : Option Nat) :
    (getAction ce c).1 = XmodemState_t.IDLE ∨
      (getAction ce c).1 = XmodemState_t.INIT_TRANSFER ∨
      (getAction ce c).1 = XmodemState_t.BOOT ∨
      (getAction ce c).1 = XmodemState_t.MENU ∨
      (getAction ce c).1 = XmodemState_t.CONFIRM_ERASE_NVM ∨
      (getAction ce c).1 = XmodemState_t.ERASE_NVM := by
  unfold getAction
  cases c with
  | none => simp
  | some c =>
    simp only
    split_ifs <;> simp

theorem getAction_eq_ERASE_NVM (ce : Bool) (c : Option Nat) :
    (getAction ce c).1 = XmodemState_t.ERASE_NVM ↔ ce = true ∧ c = some 121 := by
  unfold getAction
  cases c with
  | none => simp
  | some c =>
    simp only
    split_ifs <;> simp_all

theorem getAction_eq_CONFIRM_ERASE_NVM (ce : Bool) (c : Option Nat) :
    (getAction ce c).1 = XmodemState_t.CONFIRM_ERASE_NVM ↔ c = some 52 := by
  unfold getAction
  cases c with
  | none => simp
  | some c =>
    simp only
    split_ifs <;> simp_all

theorem stepIDLE_state {C P : Type} (k : Constants) (m : Machine C P) (i : Input) :
    (stepIDLE k m i).1.state = (getAction m.confirm_erase i.command).1 := by
  unfold stepIDLE
  simp only
  split_ifs <;> rfl

theorem stepIDLE_confirm_erase {C P : Type} (k : Constants) (m : Machine C P) (i : Input) :
    (stepIDLE k m i).1.confirm_erase = m.confirm_erase := by
  unfold stepIDLE
  simp only
  split_ifs <;> rfl

theorem stepRECEIVE_DATA_state {C P : Type} (k : Constants) (e : Env C P) (m : Machine C P)
    (i : Input) (hs : m.state = XmodemState_t.RECEIVE_DATA) :
    (stepRECEIVE_DATA k e m i).1.state = XmodemState_t.RECEIVE_DATA ∨
      (stepRECEIVE_DATA k e m i).1.state = XmodemState_t.COMPLETE := by
  unfold stepRECEIVE_DATA
  simp only
  split_ifs <;> simp [hs]

theorem stepWAIT_FOR_DATA_state {C P : Type} (k : Constants) (m : Machine C P)
    (i : Input) (hs : m.state = XmodemState_t.WAIT_FOR_DATA) :
    (stepWAIT_FOR_DATA k m i).1.state = XmodemState_t.RECEIVE_DATA ∨
      (stepWAIT_FOR_DATA k m i).1.state = XmodemState_t.MENU ∨
      (stepWAIT_FOR_DATA k m i).1.state = XmodemState_t.WAIT_FOR_DATA := by
  unfold stepWAIT_FOR_DATA
  simp only
  split_ifs <;> simp [hs]

theorem stepBOOT_state {C P : Type} (k : Constants) (e : Env C P) (m : Machine C P)
    (i : Input) : (stepBOOT k e m i).1.state = XmodemState_t.MENU := by
  unfold stepBOOT callNoReturn
  simp only
  split_ifs <;> rfl

theorem stepCOMPLETE_state {C P : Type} (k : Constants) (m : Machine C P) :
    (stepCOMPLETE k m).1.state = XmodemState_t.MENU := by
  unfold stepCOMPLETE
  split_ifs <;> rfl

theorem stepERASE_NVM_state {C P : Type} (k : Constants) (m : Machine C P)
    (hs : m.state = XmodemState_t.ERASE_NVM) :
    (stepERASE_NVM k m).1.state = XmodemState_t.MENU ∨
      (stepERASE_NVM k m).1.state = XmodemState_t.ERASE_NVM := by
  unfold stepERASE_NVM
  generalize erasePages k.FLASH_PAGE_SIZE pageLimit uint32Values (firstPage k) m.flash = pages
  cases pages with
  | none => right; simpa [eraseAndRestore] using hs
  | some r => left; simp [eraseAndRestore]

/-- The successor states of each state of a running machine. -/
theorem mainStep_state_cases {C P : Type} (k : Constants) (e : Env C P) (m : Machine C P)
    (i : Input) (hr : m.status = Status.running) :
    (m.state = XmodemState_t.MENU ∧ (mainStep k e m i).1.state = XmodemState_t.IDLE) ∨
      (m.state = XmodemState_t.IDLE ∧
        (mainStep k e m i).1.state = (getAction m.confirm_erase i.command).1) ∨
      (m.state = XmodemState_t.INIT_TRANSFER ∧
        (mainStep k e m i).1.state = XmodemState_t.WAIT_FOR_DATA) ∨
      (m.state = XmodemState_t.WAIT_FOR_DATA ∧
        ((mainStep k e m i).1.state = XmodemState_t.RECEIVE_DATA ∨
          (mainStep k e m i).1.state = XmodemState_t.MENU ∨
          (mainStep k e m i).1.state = XmodemState_t.WAIT_FOR_DATA)) ∨
      (m.state = XmodemState_t.RECEIVE_DATA ∧
        ((mainStep k e m i).1.state = XmodemState_t.RECEIVE_DATA ∨
          (mainStep k e m i).1.state = XmodemState_t.COMPLETE)) ∨
      (m.state = XmodemState_t.COMPLETE ∧ (mainStep k e m i).1.state = XmodemState_t.MENU) ∨
      (m.state = XmodemState_t.BOOT ∧ (mainStep k e m i).1.state = XmodemState_t.MENU) ∨
      (m.state = XmodemState_t.CONFIRM_ERASE_NVM ∧
        (mainStep k e m i).1.state = XmodemState_t.IDLE) ∨
      (m.state = XmodemState_t.ERASE_NVM ∧
        ((mainStep k e m i).1.state = XmodemState_t.MENU ∨
          (mainStep k e m i).1.state = XmodemState_t.ERASE_NVM)) := by
  cases hst : m.state
  · rw [mainStep_MENU k e m i hr hst]; simp [stepMENU]
  · rw [mainStep_IDLE k e m i hr hst]; simp [stepIDLE_state]
  · rw [mainStep_INIT_TRANSFER k e m i hr hst]; simp [stepINIT_TRANSFER]
  · rw [mainStep_WAIT_FOR_DATA k e m i hr hst]
    simpa using stepWAIT_FOR_DATA_state k m i hst
  · rw [mainStep_RECEIVE_DATA k e m i hr hst]
    simpa using stepRECEIVE_DATA_state k e m i hst
  · rw [mainStep_COMPLETE k e m i hr hst]; simp [stepCOMPLETE_state]
  · rw [mainStep_BOOT k e m i hr hst]; simp [stepBOOT_state]
  · rw [mainStep_CONFIRM_ERASE_NVM k e m i hr hst]; simp [stepCONFIRM_ERASE_NVM]
  · rw [mainStep_ERASE_NVM k e m i hr hst]
    simpa using stepERASE_NVM_state k m hst

/-! ## Where the parser is called -/

theorem erasePages_trace (ps limit : Nat) (fuel : Nat) :
    ∀ (a : Nat) (f : Nat → Nat) (r : (Nat → Nat) × List Action),
      erasePages ps limit fuel a f = some r → ∀ x ∈ r.2, ∃ p, x = Action.flash_erasePage p := by
  induction fuel with
  | zero => intro a f r h; simp [erasePages] at h
  | succ n ih =>
    intro a f r h
    rw [erasePages] at h
    by_cases hlt : a < limit
    · rw [if_pos hlt] at h
      cases hrec : erasePages ps limit n ((a + ps) % 2 ^ 32) (flash_erasePage ps f a) with
      | none => rw [hrec] at h; simp at h
      | some r2 =>
        rw [hrec] at h
        simp only [Option.some.injEq] at h
        subst h
        intro x hx
        simp only [List.mem_cons] at hx
        rcases hx with hx | hx
        · exact ⟨a, hx⟩
        · exact ih _ _ _ hrec x hx
    · rw [if_neg hlt] at h
      simp only [Option.some.injEq] at h
      subst h
      simp

theorem getAction_no_parse (ce : Bool) (c : Option Nat) (d : List Nat) :
    Action.parser_parse d ∉ (getAction ce c).2 := by
  unfold getAction
  cases c with
  | none => simp
  | some c =>
    simp only
    split_ifs <;> simp

theorem step_no_parse {C P : Type} (k : Constants) (e : Env C P) (m : Machine C P)
    (i : Input) (hs : m.state ≠ XmodemState_t.RECEIVE_DATA) (d : List Nat) :
    Action.parser_parse d ∉ (mainStep k e m i).2 := by
  by_cases hr : m.status = Status.running
  · cases hst : m.state
    · rw [mainStep_MENU k e m i hr hst]
      simp [stepMENU, bootloader_xmodem_communication_start]
    · rw [mainStep_IDLE k e m i hr hst]
      unfold stepIDLE
      simp only
      split_ifs <;> simp [getAction_no_parse]
    · rw [mainStep_INIT_TRANSFER k e m i hr hst]
      unfold stepINIT_TRANSFER
      split_ifs <;> simp
    · rw [mainStep_WAIT_FOR_DATA k e m i hr hst]
      unfold stepWAIT_FOR_DATA sendPacket
      simp only
      split_ifs <;> simp
    · exact absurd hst hs
    · rw [mainStep_COMPLETE k e m i hr hst]
      unfold stepCOMPLETE
      split_ifs <;> simp
    · rw [mainStep_BOOT k e m i hr hst]
      unfold stepBOOT callNoReturn
      simp only
      split_ifs <;> simp
    · rw [mainStep_CONFIRM_ERASE_NVM k e m i hr hst]
      simp [stepCONFIRM_ERASE_NVM]
    · rw [mainStep_ERASE_NVM k e m i hr hst]
      unfold stepERASE_NVM
      generalize hp : erasePages k.FLASH_PAGE_SIZE pageLimit uint32Values (firstPage k) m.flash = pages
      cases pages with
      | none => simp [eraseAndRestore]
      | some r =>
        simp only [eraseAndRestore, List.mem_append, List.mem_cons, List.mem_singleton, not_or]
        refine ⟨?_, by simp⟩
        intro hmem
        obtain ⟨q, hq⟩ := erasePages_trace _ _ _ _ _ _ hp _ hmem
        simp at hq
  · rw [mainStep_not_running k e m i hr]
    simp

theorem getAction_no_init (ce : Bool) (c : Option Nat) (flags : Nat) :
    Action.parser_init flags ∉ (getAction ce c).2 := by
  unfold getAction
  cases c with
  | none => simp
  | some c =>
    simp only
    split_ifs <;> simp

/-- Outside a transfer (state neither `WAIT_FOR_DATA` nor `RECEIVE_DATA`) a step that does
not call `parser_init` stays outside a transfer. -/
theorem step_stays_outside_transfer {C P : Type} (k : Constants) (e : Env C P)
    (m : Machine C P) (i : Input) (h1 : m.state ≠ XmodemState_t.WAIT_FOR_DATA)
    (h2 : m.state ≠ XmodemState_t.RECEIVE_DATA)
    (hinit : ∀ flags, Action.parser_init flags ∉ (mainStep k e m i).2) :
    (mainStep k e m i).1.state ≠ XmodemState_t.WAIT_FOR_DATA ∧
      (mainStep k e m i).1.state ≠ XmodemState_t.RECEIVE_DATA := by
  by_cases hr : m.status = Status.running
  · by_cases hi : m.state = XmodemState_t.INIT_TRANSFER
    · exfalso
      apply hinit k.PARSER_FLAG_PARSE_CUSTOM_TAGS
      rw [mainStep_INIT_TRANSFER k e m i hr hi]
      simp [stepINIT_TRANSFER]
    · have hg := getAction_state m.confirm_erase i.command
      rcases mainStep_state_cases k e m i hr with h | h | h | h | h | h | h | h | h
      all_goals (obtain ⟨ha, hb⟩ := h)
      all_goals (first | (exact absurd ha hi) | (exact absurd ha h1) | (exact absurd ha h2) | skip)
      · rw [hb]; simp
      · rw [hb]
        rcases hg with hg | hg | hg | hg | hg | hg <;> simp [hg]
      · rw [hb]; simp
      · rw [hb]; simp
      · rw [hb]; simp
      · rcases hb with hb | hb <;> simp [hb]
  · rw [mainStep_not_running k e m i hr]
    exact ⟨h1, h2⟩

/-- Outside a transfer the parser is not called before `parser_init` has been called
again. -/
theorem no_parse_without_init {C P : Type} (k : Constants) (e : Env C P)
    (is : List Input) :
    ∀ m : Machine C P, m.state ≠ XmodemState_t.WAIT_FOR_DATA →
      m.state ≠ XmodemState_t.RECEIVE_DATA →
      (∀ flags, Action.parser_init flags ∉ (runFrom k e m is).2) →
      ∀ d, Action.parser_parse d ∉ (runFrom k e m is).2 := by
  induction is with
  | nil => intro m _ _ _ d; simp [runFrom_nil]
  | cons i is ih =>
    intro m h1 h2 hinit d
    rw [runFrom_cons] at hinit ⊢
    simp only [List.mem_append, not_or] at hinit ⊢
    have hstep := step_stays_outside_transfer k e m i h1 h2 (fun f => (hinit f).1)
    exact ⟨step_no_parse k e m i h2 d, ih _ hstep.1 hstep.2 (fun f => (hinit f).2) d⟩

theorem trailers_ne : transferCompleteStr ≠ transferAbortedStr ∧
    transferCompleteStr ≠ xmodemError ∧ transferCompleteStr ≠ fileError ∧
    transferAbortedStr ≠ xmodemError ∧ transferAbortedStr ≠ fileError := by
  decide

/-! ## Invariants of runs -/

/-- A property kept by every iteration holds after any number of iterations. -/
theorem runFrom_invariant {C P : Type} (k : Constants) (e : Env C P)
    (Q : Machine C P → Prop) (hstep : ∀ m i, Q m → Q (mainStep k e m i).1)
    (is : List Input) : ∀ m, Q m → Q (runFrom k e m is).1 := by
  induction is with
  | nil => intro m h; simpa [runFrom_nil] using h
  | cons i is ih =>
    intro m h
    rw [runFrom_cons]
    exact ih _ (hstep m i h)

/-- Whenever the machine is in `COMPLETE` it is running, and `response` is ACK together
with `ret` being XMODEM_DONE only if the image is completed and verified. -/
theorem complete_invariant_step {C P : Type} (k : Constants) (e : Env C P)
    (hCA : k.XMODEM_CMD_CAN ≠ k.XMODEM_CMD_ACK)
    (hDONE : k.BOOTLOADER_ERROR_XMODEM_DONE ≠ k.BOOTLOADER_OK)
    (m : Machine C P) (i : Input)
    (hinv : m.state = XmodemState_t.COMPLETE → m.status = Status.running ∧
      (m.response = k.XMODEM_CMD_ACK ∧ m.ret = k.BOOTLOADER_ERROR_XMODEM_DONE →
        m.imageProps.imageCompleted = true ∧ m.imageProps.imageVerified = true)) :
    (mainStep k e m i).1.state = XmodemState_t.COMPLETE →
      (mainStep k e m i).1.status = Status.running ∧
      ((mainStep k e m i).1.response = k.XMODEM_CMD_ACK ∧
          (mainStep k e m i).1.ret = k.BOOTLOADER_ERROR_XMODEM_DONE →
        (mainStep k e m i).1.imageProps.imageCompleted = true ∧
          (mainStep k e m i).1.imageProps.imageVerified = true) := by
  by_cases hr : m.status = Status.running
  · have hg := getAction_state m.confirm_erase i.command
    rcases mainStep_state_cases k e m i hr with h | h | h | h | h | h | h | h | h
    · intro hc; rw [h.2] at hc; cases hc
    · intro hc; rw [h.2] at hc
      rcases hg with hg | hg | hg | hg | hg | hg <;> rw [hg] at hc <;> cases hc
    · intro hc; rw [h.2] at hc; cases hc
    · intro hc
      rcases h.2 with h2 | h2 | h2 <;> rw [h2] at hc <;> cases hc
    · obtain ⟨hs, -⟩ := h
      rw [mainStep_RECEIVE_DATA k e m i hr hs]
      unfold stepRECEIVE_DATA
      dsimp only
      generalize receivePacket k i (List.replicate sizeof_XmodemPacket_t 0) = r
      generalize e.xmodem_parsePacket m.xmodem r.2 m.response = c
      generalize e.parser_parse m.parserContext m.imageProps (XmodemPacket_t.data r.2)
        XMODEM_DATA_SIZE = p
      by_cases hrx : r.1 = k.BOOTLOADER_OK
      · by_cases hok : c.1 = k.BOOTLOADER_OK ∧ XmodemPacket_t.header r.2 = k.XMODEM_CMD_SOH
        · simp only [hrx, ne_eq, not_true_eq_false, if_false, hok, and_self, if_true]
          intro _
          refine ⟨hr, ?_⟩
          rintro ⟨hresp, hret⟩
          by_cases hp : p.1 = k.BOOTLOADER_OK
          · exact absurd (hret.symm.trans hp) hDONE
          · simp only [hp, not_false_eq_true, if_true] at hresp
            exact absurd hresp hCA
        · simp only [hrx, ne_eq, not_true_eq_false, if_false, hok]
          intro _
          refine ⟨hr, ?_⟩
          rintro ⟨hresp, hret⟩
          cases hcomp : m.imageProps.imageCompleted <;> cases hver : m.imageProps.imageVerified
          all_goals simp only [hret, decide_True, hcomp, hver, Bool.not_false, Bool.not_true,
            Bool.or_true, Bool.or_false, Bool.true_or, Bool.and_true, Bool.and_self, if_true]
            at hresp
          all_goals first | exact absurd hresp hCA | exact ⟨rfl, rfl⟩
      · simp only [hrx, ne_eq, not_false_eq_true, if_true, hs]
        intro hc
        cases hc
    · intro hc; rw [h.2] at hc; cases hc
    · intro hc; rw [h.2] at hc; cases hc
    · intro hc; rw [h.2] at hc; cases hc
    · intro hc
      rcases h.2 with h2 | h2 <;> rw [h2] at hc <;> cases hc
  · rw [mainStep_not_running k e m i hr]
    exact hinv

/-! ## The packet-retry budget -/

/-- Silent `WAIT_FOR_DATA` steps below the budget: the machine stays in `WAIT_FOR_DATA`,
the budget goes down by one per step and only ready bytes are sent. -/
theorem wait_silent_below_budget {C P : Type} (k : Constants) (e : Env C P)
    (hC : k.XMODEM_CMD_C ≠ k.XMODEM_CMD_CAN) (is : List Input) :
    ∀ m : Machine C P, m.status = Status.running → m.state = XmodemState_t.WAIT_FOR_DATA →
      (∀ i ∈ is, i.rxAvailable = false) → (is.length : Int) < m.packetTimeout →
      runFrom k e m is =
        ({ m with packetTimeout := m.packetTimeout - is.length },
          List.replicate is.length (Action.uart_sendByte k.XMODEM_CMD_C)) := by
  induction is with
  | nil => intro m _ _ _ _; simp [runFrom_nil]
  | cons i is ih =>
    intro m hr hs hsil hlen
    have hi : i.rxAvailable = false := hsil i (List.mem_cons_self _ _)
    have hlen2 : ((is.length : Int) + 1) < m.packetTimeout := by
      simpa using hlen
    have hne : ¬ (m.packetTimeout - 1 = 0) := by omega
    have hstep : mainStep k e m i =
        ({ m with packetTimeout := m.packetTimeout - 1 },
          [Action.uart_sendByte k.XMODEM_CMD_C]) := by
      rw [mainStep_WAIT_FOR_DATA k e m i hr hs]
      unfold stepWAIT_FOR_DATA
      simp [hi, hne, sendPacket, hC]
    rw [runFrom_cons, hstep]
    rw [ih { m with packetTimeout := m.packetTimeout - 1 } hr hs
      (fun j hj => hsil j (List.mem_cons_of_mem _ hj)) (by simp; omega)]
    simp only [List.length_cons, Nat.cast_add, Nat.cast_one, List.replicate_succ,
      List.singleton_append, Prod.mk.injEq, and_true]
    congr 1
    omega

/-- The budget is 60 whenever the machine is about to initialise a transfer. -/
theorem init_transfer_budget_step {C P : Type} (k : Constants) (e : Env C P)
    (m : Machine C P) (i : Input)
    (hinv : m.state = XmodemState_t.INIT_TRANSFER → m.packetTimeout = 60) :
    (mainStep k e m i).1.state = XmodemState_t.INIT_TRANSFER →
      (mainStep k e m i).1.packetTimeout = 60 := by
  by_cases hr : m.status = Status.running
  · rcases mainStep_state_cases k e m i hr with h | h | h | h | h | h | h | h | h
    · intro hc; rw [h.2] at hc; cases hc
    · intro hc
      rw [mainStep_IDLE k e m i hr h.1] at hc ⊢
      rw [stepIDLE_state] at hc
      unfold stepIDLE
      simp only
      split_ifs with h1 h2 h3 h4
      · rfl
      · rw [h2] at hc; cases hc
      · rfl
      · rfl
      · rfl
    · intro hc; rw [h.2] at hc; cases hc
    · intro hc
      rcases h.2 with h2 | h2 | h2 <;> rw [h2] at hc <;> cases hc
    · intro hc
      rcases h.2 with h2 | h2 <;> rw [h2] at hc <;> cases hc
    · intro hc; rw [h.2] at hc; cases hc
    · intro hc; rw [h.2] at hc; cases hc
    · intro hc; rw [h.2] at hc; cases hc
    · intro hc
      rcases h.2 with h2 | h2 <;> rw [h2] at hc <;> cases hc
  · rw [mainStep_not_running k e m i hr]
    exact hinv

/-! ## The confirmation flag -/

/-- Only `CONFIRM_ERASE_NVM` and `ERASE_NVM` assign `confirm_erase`. -/
theorem mainStep_confirm_erase_unchanged {C P : Type} (k : Constants) (e : Env C P)
    (m : Machine C P) (i : Input) (h1 : m.state ≠ XmodemState_t.CONFIRM_ERASE_NVM)
    (h2 : m.state ≠ XmodemState_t.ERASE_NVM) :
    (mainStep k e m i).1.confirm_erase = m.confirm_erase := by
  by_cases hr : m.status = Status.running
  · cases hst : m.state
    · rw [mainStep_MENU k e m i hr hst]; rfl
    · rw [mainStep_IDLE k e m i hr hst]; exact stepIDLE_confirm_erase k m i
    · rw [mainStep_INIT_TRANSFER k e m i hr hst]; rfl
    · rw [mainStep_WAIT_FOR_DATA k e m i hr hst]
      unfold stepWAIT_FOR_DATA
      simp only
      split_ifs <;> rfl
    · rw [mainStep_RECEIVE_DATA k e m i hr hst]
      unfold stepRECEIVE_DATA
      simp only
      split_ifs <;> rfl
    · rw [mainStep_COMPLETE k e m i hr hst]
      unfold stepCOMPLETE
      split_ifs <;> rfl
    · rw [mainStep_BOOT k e m i hr hst]
      unfold stepBOOT callNoReturn
      simp only
      split_ifs <;> rfl
    · exact absurd hst h1
    · exact absurd hst h2
  · rw [mainStep_not_running k e m i hr]

/-- After `ERASE_NVM` the flag is cleared, unless the page loop never ends. -/
theorem stepERASE_NVM_confirm_erase {C P : Type} (k : Constants) (m : Machine C P) :
    (stepERASE_NVM k m).1.confirm_erase = false ∨
      ((stepERASE_NVM k m).1.confirm_erase = m.confirm_erase ∧
        (stepERASE_NVM k m).1.status = Status.hung) := by
  unfold stepERASE_NVM
  generalize erasePages k.FLASH_PAGE_SIZE pageLimit uint32Values (firstPage k) m.flash = pages
  cases pages with
  | none => right; simp [eraseAndRestore]
  | some r => left; simp [eraseAndRestore]

/-- The flag can only be set after an iteration if it was set before or the iteration was
`CONFIRM_ERASE_NVM`. -/
theorem mainStep_confirm_erase_true {C P : Type} (k : Constants) (e : Env C P)
    (m : Machine C P) (i : Input) (h : (mainStep k e m i).1.confirm_erase = true) :
    m.confirm_erase = true ∨ m.state = XmodemState_t.CONFIRM_ERASE_NVM := by
  by_cases h1 : m.state = XmodemState_t.CONFIRM_ERASE_NVM
  · exact Or.inr h1
  · left
    by_cases h2 : m.state = XmodemState_t.ERASE_NVM
    · by_cases hr : m.status = Status.running
      · rw [mainStep_ERASE_NVM k e m i hr h2] at h
        rcases stepERASE_NVM_confirm_erase k m with hf | ⟨hf, -⟩
        · rw [hf] at h; cases h
        · rw [hf] at h; exact h
      · rw [mainStep_not_running k e m i hr] at h
        exact h
    · rw [mainStep_confirm_erase_unchanged k e m i h1 h2] at h
      exact h

/-- Entering `CONFIRM_ERASE_NVM` takes an `IDLE` step that receives '4'. -/
theorem mainStep_enters_CONFIRM {C P : Type} (k : Constants) (e : Env C P)
    (m : Machine C P) (i : Input)
    (h : (mainStep k e m i).1.state = XmodemState_t.CONFIRM_ERASE_NVM) :
    (m.state = XmodemState_t.IDLE ∧ i.command = some 52) ∨
      m.state = XmodemState_t.CONFIRM_ERASE_NVM := by
  by_cases hr : m.status = Status.running
  · rcases mainStep_state_cases k e m i hr with c | c | c | c | c | c | c | c | c
    · rw [c.2] at h; cases h
    · left
      rw [c.2] at h
      exact ⟨c.1, (getAction_eq_CONFIRM_ERASE_NVM _ _).1 h⟩
    · rw [c.2] at h; cases h
    · rcases c.2 with c2 | c2 | c2 <;> rw [c2] at h <;> cases h
    · rcases c.2 with c2 | c2 <;> rw [c2] at h <;> cases h
    · rw [c.2] at h; cases h
    · rw [c.2] at h; cases h
    · rw [c.2] at h; cases h
    · rcases c.2 with c2 | c2 <;> rw [c2] at h <;> cases h
  · rw [mainStep_not_running k e m i hr] at h
    exact Or.inr h

/-- Entering `ERASE_NVM` takes an `IDLE` step that receives 'y' while the flag is set. -/
theorem mainStep_enters_ERASE {C P : Type} (k : Constants) (e : Env C P)
    (m : Machine C P) (i : Input)
    (h : (mainStep k e m i).1.state = XmodemState_t.ERASE_NVM) :
    (m.state = XmodemState_t.IDLE ∧ m.confirm_erase = true ∧ i.command = some 121) ∨
      m.state = XmodemState_t.ERASE_NVM := by
  by_cases hr : m.status = Status.running
  · rcases mainStep_state_cases k e m i hr with c | c | c | c | c | c | c | c | c
    · rw [c.2] at h; cases h
    · left
      rw [c.2] at h
      exact ⟨c.1, (getAction_eq_ERASE_NVM _ _).1 h⟩
    · rw [c.2] at h; cases h
    · rcases c.2 with c2 | c2 | c2 <;> rw [c2] at h <;> cases h
    · rcases c.2 with c2 | c2 <;> rw [c2] at h <;> cases h
    · rw [c.2] at h; cases h
    · rw [c.2] at h; cases h
    · rw [c.2] at h; cases h
    · exact Or.inr c.1
  · rw [mainStep_not_running k e m i hr] at h
    exact Or.inr h

/-- In a run from machine `m0` whose flag is clear and which is neither confirming nor
erasing: a set flag (or state `CONFIRM_ERASE_NVM`) goes back to an `IDLE` step that
received '4', and state `ERASE_NVM` goes back to such a step followed, later, by an `IDLE`
step that received 'y' while the flag was set. -/
theorem erase_gate_invariant {C P : Type} (k : Constants) (e : Env C P) (m0 : Machine C P)
    (h0 : m0.confirm_erase = false) (h1 : m0.state ≠ XmodemState_t.CONFIRM_ERASE_NVM)
    (h2 : m0.state ≠ XmodemState_t.ERASE_NVM) (is : List Input) :
    (((runFrom k e m0 is).1.confirm_erase = true ∨
        (runFrom k e m0 is).1.state = XmodemState_t.CONFIRM_ERASE_NVM) →
      ∃ pre a post, is = pre ++ a :: post ∧
        (runFrom k e m0 pre).1.state = XmodemState_t.IDLE ∧ a.command = some 52) ∧
    ((runFrom k e m0 is).1.state = XmodemState_t.ERASE_NVM →
      ∃ pre a mid b post, is = pre ++ a :: (mid ++ b :: post) ∧
        (runFrom k e m0 pre).1.state = XmodemState_t.IDLE ∧ a.command = some 52 ∧
        (runFrom k e m0 (pre ++ a :: mid)).1.state = XmodemState_t.IDLE ∧
        (runFrom k e m0 (pre ++ a :: mid)).1.confirm_erase = true ∧
        b.command = some 121) := by
  induction is using List.reverseRecOn with
  | nil =>
    constructor
    · intro h
      rcases h with h | h
      · rw [runFrom_nil] at h; rw [h0] at h; cases h
      · rw [runFrom_nil] at h; exact absurd h h1
    · intro h
      rw [runFrom_nil] at h; exact absurd h h2
  | append_singleton is x ih =>
    obtain ⟨ihA, ihB⟩ := ih
    rw [runFrom_snoc]
    dsimp only
    have extend : (∃ pre a post, is = pre ++ a :: post ∧
        (runFrom k e m0 pre).1.state = XmodemState_t.IDLE ∧ a.command = some 52) →
        ∃ pre a post, is ++ [x] = pre ++ a :: post ∧
          (runFrom k e m0 pre).1.state = XmodemState_t.IDLE ∧ a.command = some 52 := by
      rintro ⟨pre, a, post, hdec, hp⟩
      exact ⟨pre, a, post ++ [x], by rw [hdec]; simp, hp⟩
    constructor
    · intro h
      rcases h with h | h
      · exact extend (ihA (mainStep_confirm_erase_true k e _ x h))
      · rcases mainStep_enters_CONFIRM k e _ x h with ⟨hidle, hcmd⟩ | hc
        · exact ⟨is, x, [], rfl, hidle, hcmd⟩
        · exact extend (ihA (Or.inr hc))
    · intro h
      rcases mainStep_enters_ERASE k e _ x h with ⟨hidle, hce, hcmd⟩ | hc
      · obtain ⟨pre, a, post, hdec, hp1, hp2⟩ := ihA (Or.inl hce)
        refine ⟨pre, a, post, x, [], by rw [hdec]; simp, hp1, hp2, ?_, ?_, hcmd⟩
        · rw [← hdec]; exact hidle
        · rw [← hdec]; exact hce
      · obtain ⟨pre, a, mid, b, post, hdec, hp⟩ := ihB hc
        exact ⟨pre, a, mid, b, post ++ [x], by rw [hdec]; simp, hp⟩

/-! ## The page loop -/

/-- More fuel does not change the outcome of a page loop that has ended. -/
theorem erasePages_more_fuel (ps limit : Nat) (fuel : Nat) :
    ∀ (extra a : Nat) (f : Nat → Nat) (r : (Nat → Nat) × List Action),
      erasePages ps limit fuel a f = some r →
      erasePages ps limit (fuel + extra) a f = some r := by
  induction fuel with
  | zero => intro extra a f r h; simp [erasePages] at h
  | succ n ih =>
    intro extra a f r h
    have hadd : n + 1 + extra = (n + extra) + 1 := by omega
    rw [hadd]
    rw [erasePages] at h ⊢
    by_cases hlt : a < limit
    · rw [if_pos hlt] at h ⊢
      cases hrec : erasePages ps limit n ((a + ps) % 2 ^ 32) (flash_erasePage ps f a) with
      | none => rw [hrec] at h; simp at h
      | some r2 =>
        rw [hrec] at h
        rw [ih extra _ _ r2 hrec]
        exact h
    · rw [if_neg hlt] at h ⊢
      exact h

theorem memcpyFromFlash_getD (f : Nat → Nat) (address size j : Nat) (hj : j < size) :
    (memcpyFromFlash f address size).getD j 0 = f (address + j) := by
  unfold memcpyFromFlash
  simp [List.getD_eq_getElem?_getD, List.getElem?_map, List.getElem?_range hj]

theorem memcpyFromFlash_length (f : Nat → Nat) (address size : Nat) :
    (memcpyFromFlash f address size).length = size := by
  simp [memcpyFromFlash]

/-- The page loop for an 8 KiB page: six pages are erased, from 0x08074000 on. -/
theorem erasePages_8k (f : Nat → Nat) :
    erasePages 0x2000 0x08080000 7 0x08074000 f =
      some (flash_erasePage 0x2000 (flash_erasePage 0x2000 (flash_erasePage 0x2000
          (flash_erasePage 0x2000 (flash_erasePage 0x2000 (flash_erasePage 0x2000 f
            0x08074000) 0x08076000) 0x08078000) 0x0807a000) 0x0807c000) 0x0807e000,
        [Action.flash_erasePage 0x08074000, Action.flash_erasePage 0x08076000,
          Action.flash_erasePage 0x08078000, Action.flash_erasePage 0x0807a000,
          Action.flash_erasePage 0x0807c000, Action.flash_erasePage 0x0807e000]) := by
  rfl

theorem uint32Values_eq : uint32Values = 7 + 4294967289 := by
  decide

theorem firstPage_8k (k : Constants) (hps : k.FLASH_PAGE_SIZE = 0x2000) :
    firstPage k = 0x08074000 := by
  unfold firstPage
  rw [hps]
  decide

theorem pageLimit_eq : pageLimit = 0x08080000 := by
  decide

/-- Content of the flash after the six page erases of the 8 KiB page loop. -/
theorem erased_8k_apply (f : Nat → Nat) (a : Nat) :
    flash_erasePage 0x2000 (flash_erasePage 0x2000 (flash_erasePage 0x2000
        (flash_erasePage 0x2000 (flash_erasePage 0x2000 (flash_erasePage 0x2000 f
          0x08074000) 0x08076000) 0x08078000) 0x0807a000) 0x0807c000) 0x0807e000 a =
      if 0x08074000 ≤ a ∧ a < 0x08080000 then 0xFF else f a := by
  simp only [flash_erasePage]
  norm_num
  split_ifs <;> first | rfl | omega

/-- Case `ERASE_NVM` for an 8 KiB page: the page loop ends after six pages. -/
theorem stepERASE_NVM_8k {C P : Type} (k : Constants) (m : Machine C P)
    (hps : k.FLASH_PAGE_SIZE = 0x2000) :
    stepERASE_NVM k m =
      eraseAndRestore m
        (some (flash_erasePage 0x2000 (flash_erasePage 0x2000 (flash_erasePage 0x2000
            (flash_erasePage 0x2000 (flash_erasePage 0x2000 (flash_erasePage 0x2000 m.flash
              0x08074000) 0x08076000) 0x08078000) 0x0807a000) 0x0807c000) 0x0807e000,
          [Action.flash_erasePage 0x08074000, Action.flash_erasePage 0x08076000,
            Action.flash_erasePage 0x08078000, Action.flash_erasePage 0x0807a000,
            Action.flash_erasePage 0x0807c000, Action.flash_erasePage 0x0807e000])) := by
  unfold stepERASE_NVM
  rw [hps, pageLimit_eq, firstPage_8k k hps, uint32Values_eq,
    erasePages_more_fuel 0x2000 0x08080000 7 4294967289 0x08074000 m.flash _
      (erasePages_8k m.flash)]

/-! ## Status bytes -/

theorem shiftRight_four (x : Nat) : x >>> 4 = x / 16 := by
  rw [Nat.shiftRight_eq_div_pow]

theorem and_fifteen (x : Nat) : x &&& 0x0F = x % 16 :=
  Nat.and_pow_two_sub_one_eq_mod x 4

theorem ite_lt_of_lt {c : Prop} [Decidable c] {a b n : Nat} (ha : a < n) (hb : b < n) :
    (if c then a else b) < n := by
  split <;> assumption

/-- The status byte is a byte whenever `response` was one. -/
theorem statusByte_lt (k : Constants) (ret : Int) (response : Nat) (h : response < 256) :
    statusByte k ret response < 256 := by
  unfold statusByte
  iterate 14 (refine ite_lt_of_lt (by norm_num) ?_)
  exact h

/-! ## The idle budget -/

theorem getAction_eq_IDLE (ce : Bool) (c : Option Nat) :
    (getAction ce c).1 = XmodemState_t.IDLE ↔ c = none := by
  unfold getAction
  cases c with
  | none => simp
  | some c =>
    simp only
    split_ifs <;> simp

theorem getAction_none (ce : Bool) : getAction ce none = (XmodemState_t.IDLE, []) := rfl

/-- Only case `IDLE` assigns `idleTimeout`. -/
theorem mainStep_idleTimeout_unchanged {C P : Type} (k : Constants) (e : Env C P)
    (m : Machine C P) (i : Input) (h : m.state ≠ XmodemState_t.IDLE) :
    (mainStep k e m i).1.idleTimeout = m.idleTimeout := by
  by_cases hr : m.status = Status.running
  · cases hst : m.state
    · rw [mainStep_MENU k e m i hr hst]; rfl
    · exact absurd hst h
    · rw [mainStep_INIT_TRANSFER k e m i hr hst]; rfl
    · rw [mainStep_WAIT_FOR_DATA k e m i hr hst]
      unfold stepWAIT_FOR_DATA
      simp only
      split_ifs <;> rfl
    · rw [mainStep_RECEIVE_DATA k e m i hr hst]
      unfold stepRECEIVE_DATA
      simp only
      split_ifs <;> rfl
    · rw [mainStep_COMPLETE k e m i hr hst]
      unfold stepCOMPLETE
      split_ifs <;> rfl
    · rw [mainStep_BOOT k e m i hr hst]
      unfold stepBOOT callNoReturn
      simp only
      split_ifs <;> rfl
    · rw [mainStep_CONFIRM_ERASE_NVM k e m i hr hst]; rfl
    · rw [mainStep_ERASE_NVM k e m i hr hst]
      unfold stepERASE_NVM
      generalize erasePages k.FLASH_PAGE_SIZE pageLimit uint32Values (firstPage k) m.flash =
        pages
      cases pages <;> rfl
  · rw [mainStep_not_running k e m i hr]

/-- An `IDLE` poll without input, above the last unit of the budget. -/
theorem stepIDLE_silent {C P : Type} (k : Constants) (m : Machine C P) (i : Input)
    (hT : 0 < k.BTL_XMODEM_IDLE_TIMEOUT) (hi : i.command = none)
    (hne : m.idleTimeout - 1 ≠ 0) :
    stepIDLE k m i =
      ({ m with state := XmodemState_t.IDLE, idleTimeout := m.idleTimeout - 1,
                packetTimeout := 60 }, []) := by
  unfold stepIDLE
  simp only [hi, getAction_none, hT, if_true, hne, if_false]

/-- The `IDLE` poll without input that uses up the budget. -/
theorem stepIDLE_expires {C P : Type} (k : Constants) (m : Machine C P) (i : Input)
    (hT : 0 < k.BTL_XMODEM_IDLE_TIMEOUT) (hi : i.command = none)
    (hz : m.idleTimeout - 1 = 0) :
    (stepIDLE k m i).2 =
      [Action.reset_resetWithReason ResetReason.BOOTLOADER_RESET_REASON_TIMEOUT] := by
  unfold stepIDLE
  simp only [hi, getAction_none, hT, if_true, hz]
  split_ifs <;> rfl

/-- Polls without input below the budget: nothing is done, the budget goes down by one per
poll. -/
theorem idle_silent_below_budget {C P : Type} (k : Constants) (e : Env C P)
    (hT : 0 < k.BTL_XMODEM_IDLE_TIMEOUT) (is : List Input) :
    ∀ m : Machine C P, m.status = Status.running → m.state = XmodemState_t.IDLE →
      (∀ i ∈ is, i.command = none) → (is.length : Int) < m.idleTimeout →
      (runFrom k e m is).2 = [] ∧
      (runFrom k e m is).1.state = XmodemState_t.IDLE ∧
      (runFrom k e m is).1.status = Status.running ∧
      (runFrom k e m is).1.idleTimeout = m.idleTimeout - is.length ∧
      (runFrom k e m is).1.confirm_erase = m.confirm_erase := by
  induction is with
  | nil => intro m hr hs _ _; simp [runFrom_nil, hr, hs]
  | cons i is ih =>
    intro m hr hs hsil hlen
    have hi : i.command = none := hsil i (List.mem_cons_self _ _)
    have hlen2 : ((is.length : Int) + 1) < m.idleTimeout := by simpa using hlen
    have hne : m.idleTimeout - 1 ≠ 0 := by omega
    rw [runFrom_cons, mainStep_IDLE k e m i hr hs, stepIDLE_silent k m i hT hi hne]
    obtain ⟨h1, h2, h3, h4, h5⟩ := ih
      { m with state := XmodemState_t.IDLE, idleTimeout := m.idleTimeout - 1,
               packetTimeout := 60 } hr rfl
      (fun j hj => hsil j (List.mem_cons_of_mem _ hj)) (by simp only; omega)
    refine ⟨by rw [h1]; rfl, h2, h3, ?_, h5⟩
    rw [h4]
    simp only [List.length_cons, Nat.cast_add, Nat.cast_one]
    omega

/-! ## C1: the two-step erase gate -/

/-- C1. In every run of `bootloader_xmodem_communication_main` from its initial state,
whatever is received: if the machine is in `ERASE_NVM`, then earlier an `IDLE` step
received the command byte '4', and a later, separate `IDLE` step, taken with
`confirm_erase` set, received 'y'.  With `confirm_erase` clear no command byte makes
`getAction` return `ERASE_NVM`, and 'y' yields `MENU`. -/
theorem erase_needs_two_commands {C P : Type} (k : Constants) (e : Env C P) :
    (∀ (imageProps : ImageProperties_t) (parserContext : P) (xmodem : C) (flash : Nat → Nat)
      (is : List Input),
      (bootloader_xmodem_communication_main k e imageProps parserContext xmodem flash
        is).1.state = XmodemState_t.ERASE_NVM →
      ∃ pre a mid b post, is = pre ++ a :: (mid ++ b :: post) ∧
        (bootloader_xmodem_communication_main k e imageProps parserContext xmodem flash
          pre).1.state = XmodemState_t.IDLE ∧
        a.command = some 52 ∧
        (bootloader_xmodem_communication_main k e imageProps parserContext xmodem flash
          (pre ++ a :: mid)).1.state = XmodemState_t.IDLE ∧
        (bootloader_xmodem_communication_main k e imageProps parserContext xmodem flash
          (pre ++ a :: mid)).1.confirm_erase = true ∧
        b.command = some 121) ∧
    (∀ c : Option Nat, (getAction false c).1 ≠ XmodemState_t.ERASE_NVM) ∧
    (getAction false (some 121)).1 = XmodemState_t.MENU := by
  refine ⟨?_, ?_, rfl⟩
  · intro imageProps parserContext xmodem flash is h
    unfold bootloader_xmodem_communication_main at h ⊢
    exact (erase_gate_invariant k e (mainInit k imageProps parserContext xmodem flash)
      rfl (by simp [mainInit]) (by simp [mainInit]) is).2 h
  · intro c h
    have := (getAction_eq_ERASE_NVM false c).1 h
    simp at this

/-- Witness for C1: '4', the confirmation step, then 'y' bring the sample run into
`ERASE_NVM`, and the run splits as the theorem says. -/
theorem erase_needs_two_commands_witness :
    (bootloader_xmodem_communication_main sampleConstants (sampleEnv 0) zeroProps () ()
        (fun _ => 0xFF) [key 52, silence, key 121]).1.state = XmodemState_t.ERASE_NVM ∧
    ∃ pre a mid b post, [key 52, silence, key 121] = pre ++ a :: (mid ++ b :: post) ∧
      (bootloader_xmodem_communication_main sampleConstants (sampleEnv 0) zeroProps () ()
        (fun _ => 0xFF) pre).1.state = XmodemState_t.IDLE ∧
      a.command = some 52 ∧
      (bootloader_xmodem_communication_main sampleConstants (sampleEnv 0) zeroProps () ()
        (fun _ => 0xFF) (pre ++ a :: mid)).1.state = XmodemState_t.IDLE ∧
      (bootloader_xmodem_communication_main sampleConstants (sampleEnv 0) zeroProps () ()
        (fun _ => 0xFF) (pre ++ a :: mid)).1.confirm_erase = true ∧
      b.command = some 121 :=
  ⟨by decide,
    (erase_needs_two_commands sampleConstants (sampleEnv 0)).1 zeroProps () ()
      (fun _ => 0xFF) [key 52, silence, key 121] (by decide)⟩

/-! ## C2: `BOOT` without a completed and verified image -/

/-- C2. In every `BOOT` step in which the image is not both completed and verified (in
particular completed but not verified), the only call made is the reset with reason
BADIMAGE, which is how the failure is reported: no upgrade commit (secure element or
bootloader) is invoked, no reset with reason GO is issued, and the state variable is set
to MENU. -/
theorem boot_unverified_never_commits {C P : Type} (k : Constants) (e : Env C P)
    (m : Machine C P) (i : Input) (hr : m.status = Status.running)
    (hs : m.state = XmodemState_t.BOOT)
    (h : ¬ (m.imageProps.imageCompleted = true ∧ m.imageProps.imageVerified = true)) :
    (mainStep k e m i).2 =
        [Action.reset_resetWithReason ResetReason.BOOTLOADER_RESET_REASON_BADIMAGE] ∧
      Action.bootload_commitSeUpgrade ∉ (mainStep k e m i).2 ∧
      (∀ size, Action.bootload_commitBootloaderUpgrade size ∉ (mainStep k e m i).2) ∧
      Action.reset_resetWithReason ResetReason.BOOTLOADER_RESET_REASON_GO ∉
        (mainStep k e m i).2 ∧
      (mainStep k e m i).1.state = XmodemState_t.MENU ∧
      (mainStep k e m i).1.imageProps = m.imageProps ∧
      (mainStep k e m i).1.flash = m.flash := by
  have hstep : mainStep k e m i =
      callNoReturn { m with state := XmodemState_t.MENU } i
        (Action.reset_resetWithReason ResetReason.BOOTLOADER_RESET_REASON_BADIMAGE) [] := by
    rw [mainStep_BOOT k e m i hr hs]
    unfold stepBOOT
    have h2 : (m.imageProps.imageCompleted && m.imageProps.imageVerified) = false := by
      cases hc : m.imageProps.imageCompleted <;> cases hv : m.imageProps.imageVerified <;>
        simp_all
    simp [h2]
  rw [hstep]
  unfold callNoReturn
  cases i.callReturns <;> simp

/-- Witness for C2: a completed but unverified image in the sample machine. -/
theorem boot_unverified_never_commits_witness :
    (mainStep sampleConstants (sampleEnv 0)
        (sampleMachine XmodemState_t.BOOT { zeroProps with imageCompleted := true })
        silence).2 =
      [Action.reset_resetWithReason ResetReason.BOOTLOADER_RESET_REASON_BADIMAGE] :=
  (boot_unverified_never_commits sampleConstants (sampleEnv 0)
    (sampleMachine XmodemState_t.BOOT { zeroProps with imageCompleted := true })
    silence rfl rfl (by decide)).1

/-! ## C3: erase preserves the tokens and touches nothing outside the span -/

/-- C3. With an 8 KiB flash page, flash as a byte map, `flash_erasePage` setting one page
to 0xFF and `flash_writeBuffer` storing the given bytes: for every flash content, one
`ERASE_NVM` step ends (the machine keeps running and goes to `MENU`); the page loop erases
exactly the six pages that start in [0x08074000, 0x08080000), then the two token ranges,
read from the flash content found at entry, are written back; afterwards (i) every byte
outside the span is unchanged, (ii) the 20 bytes at 0x0807e284 and the 64 bytes at
0x0807e34c have their values from before the erase, and (iii) every other byte of the
span is 0xFF. -/
theorem erase_preserves_tokens {C P : Type} (k : Constants) (e : Env C P) (m : Machine C P)
    (i : Input) (hr : m.status = Status.running) (hs : m.state = XmodemState_t.ERASE_NVM)
    (hps : k.FLASH_PAGE_SIZE = 0x2000) :
    (mainStep k e m i).1.status = Status.running ∧
      (mainStep k e m i).1.state = XmodemState_t.MENU ∧
      (mainStep k e m i).2 =
        [Action.flash_erasePage 0x08074000, Action.flash_erasePage 0x08076000,
          Action.flash_erasePage 0x08078000, Action.flash_erasePage 0x0807a000,
          Action.flash_erasePage 0x0807c000, Action.flash_erasePage 0x0807e000,
          Action.flash_writeBuffer 0x0807e284 (memcpyFromFlash m.flash 0x0807e284 20),
          Action.flash_writeBuffer 0x0807e34c (memcpyFromFlash m.flash 0x0807e34c 64),
          Action.uart_sendBuffer (cstr "\r\nNVM erased\r\n")] ∧
      (∀ a, a < 0x08074000 ∨ 0x08080000 ≤ a → (mainStep k e m i).1.flash a = m.flash a) ∧
      (∀ a, 0x0807e284 ≤ a → a < 0x0807e284 + 20 →
        (mainStep k e m i).1.flash a = m.flash a) ∧
      (∀ a, 0x0807e34c ≤ a → a < 0x0807e34c + 64 →
        (mainStep k e m i).1.flash a = m.flash a) ∧
      (∀ a, 0x08074000 ≤ a → a < 0x08080000 →
        ¬ (0x0807e284 ≤ a ∧ a < 0x0807e284 + 20) →
        ¬ (0x0807e34c ≤ a ∧ a < 0x0807e34c + 64) →
        (mainStep k e m i).1.flash a = 0xFF) := by
  rw [mainStep_ERASE_NVM k e m i hr hs, stepERASE_NVM_8k k m hps]
  have hflash : ∀ a, (eraseAndRestore m
        (some (flash_erasePage 0x2000 (flash_erasePage 0x2000 (flash_erasePage 0x2000
            (flash_erasePage 0x2000 (flash_erasePage 0x2000 (flash_erasePage 0x2000 m.flash
              0x08074000) 0x08076000) 0x08078000) 0x0807a000) 0x0807c000) 0x0807e000,
          [Action.flash_erasePage 0x08074000, Action.flash_erasePage 0x08076000,
            Action.flash_erasePage 0x08078000, Action.flash_erasePage 0x0807a000,
            Action.flash_erasePage 0x0807c000, Action.flash_erasePage 0x0807e000]))).1.flash a =
      if 0x0807e34c ≤ a ∧ a < 0x0807e34c + 64 then m.flash a
      else if 0x0807e284 ≤ a ∧ a < 0x0807e284 + 20 then m.flash a
      else if 0x08074000 ≤ a ∧ a < 0x08080000 then 0xFF else m.flash a := by
    intro a
    simp only [eraseAndRestore, flash_writeBuffer, memcpyFromFlash_length,
      btl_enc_key_address, btl_sign_key_address, erased_8k_apply]
    by_cases h1 : 0x0807e34c ≤ a ∧ a < 0x0807e34c + 64
    · have hadd : 0x0807e34c + (a - 0x0807e34c) = a := by omega
      rw [if_pos h1, if_pos h1, memcpyFromFlash_getD _ _ _ _ (by omega), hadd]
    · rw [if_neg h1, if_neg h1]
      by_cases h2 : 0x0807e284 ≤ a ∧ a < 0x0807e284 + 20
      · have hadd : 0x0807e284 + (a - 0x0807e284) = a := by omega
        rw [if_pos h2, if_pos h2, memcpyFromFlash_getD _ _ _ _ (by omega), hadd]
      · rw [if_neg h2, if_neg h2]
  refine ⟨?_, ?_, ?_, ?_, ?_, ?_, ?_⟩
  · simpa [eraseAndRestore] using hr
  · simp [eraseAndRestore]
  · simp [eraseAndRestore, btl_enc_key_address, btl_sign_key_address]
  · intro a ha
    rw [hflash a]
    split_ifs <;> first | rfl | omega
  · intro a h1 h2
    rw [hflash a]
    split_ifs <;> first | rfl | omega
  · intro a h1 h2
    rw [hflash a]
    split_ifs <;> first | rfl | omega
  · intro a h1 h2 h3 h4
    rw [hflash a]
    split_ifs <;> first | rfl | omega

/-- Witness for C3: the sample machine (8 KiB page) in `ERASE_NVM`. -/
theorem erase_preserves_tokens_witness :
    (mainStep sampleConstants (sampleEnv 0)
        (sampleMachine XmodemState_t.ERASE_NVM zeroProps) silence).1.state =
      XmodemState_t.MENU :=
  (erase_preserves_tokens sampleConstants (sampleEnv 0)
    (sampleMachine XmodemState_t.ERASE_NVM zeroProps) silence rfl rfl rfl).2.1

/-! ## C4: the retry boundary of `WAIT_FOR_DATA` -/

/-- C4. With a ready byte distinct from the cancel byte: (a) in every run of
`bootloader_xmodem_communication_main`, a step that enters `WAIT_FOR_DATA` is an
`INIT_TRANSFER` step and leaves the packet-retry budget at 60; (b) from `WAIT_FOR_DATA`
with budget 60, after at most 59 consecutive steps without a byte the state is still
`WAIT_FOR_DATA` and only ready bytes were sent (no cancel), and after 60 such steps the
cancel byte has been sent (three times, after the 60th ready byte) and the state is
`MENU`; (c) every `WAIT_FOR_DATA` step sends exactly one ready byte, first; (d) a step in
which a byte is available moves to `RECEIVE_DATA` and leaves the budget as it is. -/
theorem wait_for_data_retry_boundary {C P : Type} (k : Constants) (e : Env C P)
    (hC : k.XMODEM_CMD_C ≠ k.XMODEM_CMD_CAN) :
    (∀ (imageProps : ImageProperties_t) (parserContext : P) (xmodem : C) (flash : Nat → Nat)
      (is : List Input) (i : Input),
      (bootloader_xmodem_communication_main k e imageProps parserContext xmodem flash
        is).1.state ≠ XmodemState_t.WAIT_FOR_DATA →
      (mainStep k e (bootloader_xmodem_communication_main k e imageProps parserContext
        xmodem flash is).1 i).1.state = XmodemState_t.WAIT_FOR_DATA →
      (bootloader_xmodem_communication_main k e imageProps parserContext xmodem flash
        is).1.state = XmodemState_t.INIT_TRANSFER ∧
      (mainStep k e (bootloader_xmodem_communication_main k e imageProps parserContext
        xmodem flash is).1 i).1.packetTimeout = 60) ∧
    (∀ (m : Machine C P) (is : List Input), m.status = Status.running →
      m.state = XmodemState_t.WAIT_FOR_DATA → m.packetTimeout = 60 →
      (∀ i ∈ is, i.rxAvailable = false) →
      (is.length ≤ 59 →
        (runFrom k e m is).1.state = XmodemState_t.WAIT_FOR_DATA ∧
        (runFrom k e m is).2 = List.replicate is.length (Action.uart_sendByte k.XMODEM_CMD_C) ∧
        Action.uart_sendByte k.XMODEM_CMD_CAN ∉ (runFrom k e m is).2) ∧
      (is.length = 60 →
        (runFrom k e m is).1.state = XmodemState_t.MENU ∧
        (runFrom k e m is).2 =
          List.replicate 60 (Action.uart_sendByte k.XMODEM_CMD_C) ++
            [Action.uart_sendByte k.XMODEM_CMD_CAN, Action.uart_sendByte k.XMODEM_CMD_CAN,
              Action.uart_sendByte k.XMODEM_CMD_CAN])) ∧
    (∀ (m : Machine C P) (i : Input), m.status = Status.running →
      m.state = XmodemState_t.WAIT_FOR_DATA →
      ∃ rest, (mainStep k e m i).2 = Action.uart_sendByte k.XMODEM_CMD_C :: rest ∧
        Action.uart_sendByte k.XMODEM_CMD_C ∉ rest) ∧
    (∀ (m : Machine C P) (i : Input), m.status = Status.running →
      m.state = XmodemState_t.WAIT_FOR_DATA → i.rxAvailable = true →
      mainStep k e m i =
        ({ m with state := XmodemState_t.RECEIVE_DATA },
          [Action.uart_sendByte k.XMODEM_CMD_C])) := by
  refine ⟨?_, ?_, ?_, ?_⟩
  · intro imageProps parserContext xmodem flash is i hne hst
    unfold bootloader_xmodem_communication_main at hne hst ⊢
    have hinv := runFrom_invariant k e
      (fun m => m.state = XmodemState_t.INIT_TRANSFER → m.packetTimeout = 60)
      (fun m i h => init_transfer_budget_step k e m i h) is
      (mainInit k imageProps parserContext xmodem flash) (by intro h; cases h)
    generalize runFrom k e (mainInit k imageProps parserContext xmodem flash) is = r at *
    by_cases hr : r.1.status = Status.running
    · have hg := getAction_state r.1.confirm_erase i.command
      rcases mainStep_state_cases k e r.1 i hr with h | h | h | h | h | h | h | h | h
      · rw [h.2] at hst; cases hst
      · rw [h.2] at hst
        rcases hg with hg | hg | hg | hg | hg | hg <;> rw [hg] at hst <;> cases hst
      · refine ⟨h.1, ?_⟩
        rw [mainStep_INIT_TRANSFER k e r.1 i hr h.1]
        exact hinv h.1
      · exact absurd h.1 hne
      · rcases h.2 with h2 | h2 <;> rw [h2] at hst <;> cases hst
      · rw [h.2] at hst; cases hst
      · rw [h.2] at hst; cases hst
      · rw [h.2] at hst; cases hst
      · rcases h.2 with h2 | h2 <;> rw [h2] at hst <;> cases hst
    · rw [mainStep_not_running k e r.1 i hr] at hst
      exact absurd hst hne
  · intro m is hr hs hb hsil
    constructor
    · intro hlen
      rw [wait_silent_below_budget k e hC is m hr hs hsil (by rw [hb]; omega)]
      refine ⟨hs, rfl, ?_⟩
      simp only [List.mem_replicate, Action.uart_sendByte.injEq, not_and]
      intro _ h
      exact hC h.symm
    · intro hlen
      rcases List.eq_nil_or_concat is with hnil | ⟨is1, x, hx⟩
      · rw [hnil] at hlen; simp at hlen
      · rw [List.concat_eq_append] at hx
        subst hx
        have hlen1 : is1.length = 59 := by simpa using hlen
        have hx : x.rxAvailable = false := hsil x (by simp)
        rw [runFrom_snoc,
          wait_silent_below_budget k e hC is1 m hr hs
            (fun j hj => hsil j (List.mem_append_left _ hj)) (by rw [hb, hlen1]; norm_num)]
        have hstep := mainStep_WAIT_FOR_DATA k e
          { m with packetTimeout := m.packetTimeout - (is1.length : Int) } x hr hs
        dsimp only
        rw [hstep]
        unfold stepWAIT_FOR_DATA
        simp [hx, hb, hlen1, sendPacket, hC, List.replicate_succ']
  · intro m i hr hs
    rw [mainStep_WAIT_FOR_DATA k e m i hr hs]
    unfold stepWAIT_FOR_DATA
    simp only [sendPacket, hC, if_false, if_true]
    split_ifs
    · exact ⟨[], rfl, by simp⟩
    · refine ⟨[Action.uart_sendByte k.XMODEM_CMD_CAN, Action.uart_sendByte k.XMODEM_CMD_CAN,
        Action.uart_sendByte k.XMODEM_CMD_CAN], rfl, ?_⟩
      simp [hC]
    · exact ⟨[], rfl, by simp⟩
  · intro m i hr hs hav
    rw [mainStep_WAIT_FOR_DATA k e m i hr hs]
    unfold stepWAIT_FOR_DATA
    simp [hav, sendPacket, hC]

set_option maxRecDepth 8000 in
/-- Witness for C4: sixty silent intervals in the sample machine end in `MENU`. -/
theorem wait_for_data_retry_boundary_witness :
    (runFrom sampleConstants (sampleEnv 0)
        (sampleMachine XmodemState_t.WAIT_FOR_DATA zeroProps)
        (List.replicate 60 silence)).1.state = XmodemState_t.MENU :=
  (((wait_for_data_retry_boundary sampleConstants (sampleEnv 0) (by decide)).2.1
    (sampleMachine XmodemState_t.WAIT_FOR_DATA zeroProps) (List.replicate 60 silence)
    rfl rfl rfl (fun i hi => by rw [List.eq_of_mem_replicate hi]; rfl)).2
    (by simp)).1

/-! ## C5: communication errors in `RECEIVE_DATA` -/

set_option maxRecDepth 20000 in
/-- C5, counterexample to the claim as stated. A run of
`bootloader_xmodem_communication_main` with the sample constants: the command '1', one
more iteration, a byte announced to `WAIT_FOR_DATA`, and then sixty consecutive
`RECEIVE_DATA` steps in which nothing arrives.  The machine is still in `RECEIVE_DATA`, the
packet-retry budget is still 60 and no cancel byte has been sent. -/
theorem receive_retries_counterexample :
    (bootloader_xmodem_communication_main sampleConstants (sampleEnv 0) zeroProps () ()
        (fun _ => 0xFF) ([key 49, silence, byteIn 1] ++ List.replicate 60 silence)).1.state =
        XmodemState_t.RECEIVE_DATA ∧
      (bootloader_xmodem_communication_main sampleConstants (sampleEnv 0) zeroProps () ()
        (fun _ => 0xFF)
        ([key 49, silence, byteIn 1] ++ List.replicate 60 silence)).1.packetTimeout = 60 ∧
      Action.uart_sendByte sampleConstants.XMODEM_CMD_CAN ∉
        (bootloader_xmodem_communication_main sampleConstants (sampleEnv 0) zeroProps () ()
          (fun _ => 0xFF) ([key 49, silence, byteIn 1] ++ List.replicate 60 silence)).2 := by
  decide

/-- C5 as amended. With a negative-acknowledge byte distinct from the cancel byte: after
any number `n` of consecutive `RECEIVE_DATA` steps in which `receivePacket` fails, the
machine is still running in `RECEIVE_DATA`, the packet-retry budget is unchanged, and
exactly `n` negative-acknowledge bytes and nothing else (no cancel) have been sent. -/
theorem receive_failures_are_not_bounded {C P : Type} (k : Constants) (e : Env C P)
    (hNAK : k.XMODEM_CMD_NAK ≠ k.XMODEM_CMD_CAN) (is : List Input) :
    ∀ m : Machine C P, m.status = Status.running → m.state = XmodemState_t.RECEIVE_DATA →
      (∀ i ∈ is, (receivePacket k i (List.replicate sizeof_XmodemPacket_t 0)).1 ≠
        k.BOOTLOADER_OK) →
      (runFrom k e m is).1.state = XmodemState_t.RECEIVE_DATA ∧
      (runFrom k e m is).1.status = Status.running ∧
      (runFrom k e m is).1.packetTimeout = m.packetTimeout ∧
      (runFrom k e m is).2 = List.replicate is.length (Action.uart_sendByte k.XMODEM_CMD_NAK) ∧
      Action.uart_sendByte k.XMODEM_CMD_CAN ∉ (runFrom k e m is).2 := by
  induction is with
  | nil => intro m hr hs _; simp [runFrom_nil, hr, hs]
  | cons i is ih =>
    intro m hr hs hfail
    have hi := hfail i (List.mem_cons_self _ _)
    have hstep : mainStep k e m i =
        ({ m with ret := (receivePacket k i (List.replicate sizeof_XmodemPacket_t 0)).1,
                  response := k.XMODEM_CMD_NAK },
          [Action.uart_sendByte k.XMODEM_CMD_NAK]) := by
      rw [mainStep_RECEIVE_DATA k e m i hr hs]
      unfold stepRECEIVE_DATA
      simp only [hi, ne_eq, not_false_eq_true, if_true]
      simp [sendPacket, hNAK]
    obtain ⟨h1, h2, h3, h4, h5⟩ := ih
      { m with ret := (receivePacket k i (List.replicate sizeof_XmodemPacket_t 0)).1,
               response := k.XMODEM_CMD_NAK } hr hs
      (fun j hj => hfail j (List.mem_cons_of_mem _ hj))
    rw [runFrom_cons, hstep]
    refine ⟨h1, h2, h3, ?_, ?_⟩
    · rw [h4]; simp [List.replicate_succ]
    · simp only [List.mem_append, List.mem_singleton, Action.uart_sendByte.injEq, not_or]
      exact ⟨fun h => hNAK h.symm, h5⟩

/-- Witness for C5 as amended: three failed reads in the sample machine. -/
theorem receive_failures_are_not_bounded_witness :
    (runFrom sampleConstants (sampleEnv 0)
        (sampleMachine XmodemState_t.RECEIVE_DATA zeroProps)
        [silence, silence, silence]).1.state = XmodemState_t.RECEIVE_DATA :=
  (receive_failures_are_not_bounded sampleConstants (sampleEnv 0) (by decide)
    [silence, silence, silence] (sampleMachine XmodemState_t.RECEIVE_DATA zeroProps)
    rfl rfl (by decide)).1

/-! ## C6: a frame read that does not complete -/

/-- C6. In a `RECEIVE_DATA` step, with a negative-acknowledge byte distinct from the cancel
byte and the communication error distinct from OK: `receivePacket` returns the
communication error when no byte becomes available in time, and when the header is
start-of-frame and fewer than `sizeof(XmodemPacket_t) - 1` further bytes arrive; whenever `receivePacket` returns an
error, exactly one negative-acknowledge byte is sent and nothing else is called (neither
codec nor parser), the image properties, the parser context and the codec state are
unchanged and the state remains `RECEIVE_DATA`; conversely `receivePacket` returns OK after
a single byte that is not start-of-frame. -/
theorem receive_failure_naks_once {C P : Type} (k : Constants) (e : Env C P)
    (m : Machine C P) (i : Input) (hr : m.status = Status.running)
    (hs : m.state = XmodemState_t.RECEIVE_DATA)
    (hNAK : k.XMODEM_CMD_NAK ≠ k.XMODEM_CMD_CAN)
    (hERR : k.BOOTLOADER_ERROR_COMMUNICATION_ERROR ≠ k.BOOTLOADER_OK) :
    (i.rxAvailable = false →
        (receivePacket k i (List.replicate sizeof_XmodemPacket_t 0)).1 =
          k.BOOTLOADER_ERROR_COMMUNICATION_ERROR ∧
        (receivePacket k i (List.replicate sizeof_XmodemPacket_t 0)).1 ≠ k.BOOTLOADER_OK) ∧
      (i.rxAvailable = true → i.first = some k.XMODEM_CMD_SOH →
        i.body.length < sizeof_XmodemPacket_t - 1 →
        (receivePacket k i (List.replicate sizeof_XmodemPacket_t 0)).1 =
          k.BOOTLOADER_ERROR_COMMUNICATION_ERROR ∧
        (receivePacket k i (List.replicate sizeof_XmodemPacket_t 0)).1 ≠ k.BOOTLOADER_OK) ∧
      ((receivePacket k i (List.replicate sizeof_XmodemPacket_t 0)).1 ≠ k.BOOTLOADER_OK →
        (mainStep k e m i).2 = [Action.uart_sendByte k.XMODEM_CMD_NAK] ∧
        (∀ packet, Action.xmodem_parsePacket packet ∉ (mainStep k e m i).2) ∧
        (∀ data, Action.parser_parse data ∉ (mainStep k e m i).2) ∧
        (mainStep k e m i).1.imageProps = m.imageProps ∧
        (mainStep k e m i).1.parserContext = m.parserContext ∧
        (mainStep k e m i).1.xmodem = m.xmodem ∧
        (mainStep k e m i).1.state = XmodemState_t.RECEIVE_DATA ∧
        (mainStep k e m i).1.status = Status.running) ∧
      (∀ b, i.rxAvailable = true → i.first = some b → b ≠ k.XMODEM_CMD_SOH →
        (receivePacket k i (List.replicate sizeof_XmodemPacket_t 0)).1 = k.BOOTLOADER_OK) := by
  refine ⟨?_, ?_, ?_, ?_⟩
  · intro h
    have hret : (receivePacket k i (List.replicate sizeof_XmodemPacket_t 0)).1 =
        k.BOOTLOADER_ERROR_COMMUNICATION_ERROR := by
      simp [receivePacket, h]
    exact ⟨hret, by rw [hret]; exact hERR⟩
  · intro h1 h2 h3
    have hlen : i.body.length + 1 < sizeof_XmodemPacket_t := by
      have h133 : sizeof_XmodemPacket_t = 133 := rfl
      omega
    have hret : (receivePacket k i (List.replicate sizeof_XmodemPacket_t 0)).1 =
        k.BOOTLOADER_ERROR_COMMUNICATION_ERROR := by
      simp [receivePacket, h1, h2, storeAt, XmodemPacket_t.header, hlen]
    exact ⟨hret, by rw [hret]; exact hERR⟩
  · intro h
    rw [mainStep_RECEIVE_DATA k e m i hr hs]
    unfold stepRECEIVE_DATA
    simp only [h, ne_eq, not_false_eq_true, if_true]
    simp [sendPacket, hNAK, hs, hr]
  · intro b h1 h2 h3
    simp [receivePacket, h1, h2, storeAt, XmodemPacket_t.header, h3]

/-- Witness for C6: nothing arrives during a `RECEIVE_DATA` step of the sample machine. -/
theorem receive_failure_naks_once_witness :
    (mainStep sampleConstants (sampleEnv 0)
        (sampleMachine XmodemState_t.RECEIVE_DATA zeroProps) silence).2 =
      [Action.uart_sendByte sampleConstants.XMODEM_CMD_NAK] :=
  ((receive_failure_naks_once sampleConstants (sampleEnv 0)
    (sampleMachine XmodemState_t.RECEIVE_DATA zeroProps) silence rfl rfl
    (by decide) (by decide)).2.2.1 (by decide)).1

/-! ## C7: frames rejected by the codec -/

/-- C7, counterexample to the claim as stated. The end-of-transmission byte arrives in
`RECEIVE_DATA`: `receivePacket` returns OK and the sample codec returns XMODEM_DONE (a
result other than OK) with response ACK.  While the image is neither completed nor
verified, the state does not stay `RECEIVE_DATA` (it becomes `COMPLETE`) and the bytes sent
are three cancel bytes, not the codec's response.  With a completed and verified image the
byte sent is the codec's response, and still the state becomes `COMPLETE`. -/
theorem rejected_frame_counterexample :
    (receivePacket sampleConstants (byteIn 4) (List.replicate sizeof_XmodemPacket_t 0)).1 =
        sampleConstants.BOOTLOADER_OK ∧
      ((sampleEnv 0).xmodem_parsePacket ()
        (receivePacket sampleConstants (byteIn 4) (List.replicate sizeof_XmodemPacket_t 0)).2
        0).1 ≠ sampleConstants.BOOTLOADER_OK ∧
      ((sampleEnv 0).xmodem_parsePacket ()
        (receivePacket sampleConstants (byteIn 4) (List.replicate sizeof_XmodemPacket_t 0)).2
        0).2.1 = sampleConstants.XMODEM_CMD_ACK ∧
      (mainStep sampleConstants (sampleEnv 0)
        (sampleMachine XmodemState_t.RECEIVE_DATA zeroProps) (byteIn 4)).1.state =
          XmodemState_t.COMPLETE ∧
      (mainStep sampleConstants (sampleEnv 0)
        (sampleMachine XmodemState_t.RECEIVE_DATA zeroProps) (byteIn 4)).2 =
          [Action.xmodem_parsePacket (4 :: List.replicate 132 0),
            Action.uart_sendByte sampleConstants.XMODEM_CMD_CAN,
            Action.uart_sendByte sampleConstants.XMODEM_CMD_CAN,
            Action.uart_sendByte sampleConstants.XMODEM_CMD_CAN] ∧
      (mainStep sampleConstants (sampleEnv 0)
        (sampleMachine XmodemState_t.RECEIVE_DATA
          { zeroProps with imageCompleted := true, imageVerified := true })
        (byteIn 4)).1.state = XmodemState_t.COMPLETE ∧
      (mainStep sampleConstants (sampleEnv 0)
        (sampleMachine XmodemState_t.RECEIVE_DATA
          { zeroProps with imageCompleted := true, imageVerified := true })
        (byteIn 4)).2 =
          [Action.xmodem_parsePacket (4 :: List.replicate 132 0),
            Action.uart_sendByte sampleConstants.XMODEM_CMD_ACK] := by
  decide

/-- C7 as amended. In a `RECEIVE_DATA` step in which `receivePacket` returns OK and the
codec returns a result other than OK: the parser is not called and the image properties
and the parser context are unchanged; the bytes sent are those of `sendPacket` for the
response chosen by the codec, unless the result is XMODEM_DONE and the image is not both
completed and verified, in which case they are those of `sendPacket` for cancel; the state
stays `RECEIVE_DATA` when the result is not XMODEM_DONE and the response is not cancel, and
becomes `COMPLETE` when the result is XMODEM_DONE or the response is cancel.  In every
`RECEIVE_DATA` step the parser is called if and only if `receivePacket` returned OK, the
codec returned OK and the header is start-of-frame. -/
theorem rejected_frame_not_parsed {C P : Type} (k : Constants) (e : Env C P)
    (m : Machine C P) (i : Input) (hr : m.status = Status.running)
    (hs : m.state = XmodemState_t.RECEIVE_DATA) :
    ((receivePacket k i (List.replicate sizeof_XmodemPacket_t 0)).1 = k.BOOTLOADER_OK →
      (e.xmodem_parsePacket m.xmodem
        (receivePacket k i (List.replicate sizeof_XmodemPacket_t 0)).2 m.response).1 ≠
          k.BOOTLOADER_OK →
      (∀ d, Action.parser_parse d ∉ (mainStep k e m i).2) ∧
      (mainStep k e m i).1.imageProps = m.imageProps ∧
      (mainStep k e m i).1.parserContext = m.parserContext ∧
      ((e.xmodem_parsePacket m.xmodem
            (receivePacket k i (List.replicate sizeof_XmodemPacket_t 0)).2 m.response).1 ≠
              k.BOOTLOADER_ERROR_XMODEM_DONE ∨
          (m.imageProps.imageCompleted = true ∧ m.imageProps.imageVerified = true) →
        (mainStep k e m i).2 =
          Action.xmodem_parsePacket
              (receivePacket k i (List.replicate sizeof_XmodemPacket_t 0)).2 ::
            (sendPacket k i.sendRet
              (e.xmodem_parsePacket m.xmodem
                (receivePacket k i (List.replicate sizeof_XmodemPacket_t 0)).2
                m.response).2.1).2 ∧
        (mainStep k e m i).1.response =
          (e.xmodem_parsePacket m.xmodem
            (receivePacket k i (List.replicate sizeof_XmodemPacket_t 0)).2
            m.response).2.1) ∧
      ((e.xmodem_parsePacket m.xmodem
            (receivePacket k i (List.replicate sizeof_XmodemPacket_t 0)).2 m.response).1 =
              k.BOOTLOADER_ERROR_XMODEM_DONE →
          ¬ (m.imageProps.imageCompleted = true ∧ m.imageProps.imageVerified = true) →
        (mainStep k e m i).2 =
          Action.xmodem_parsePacket
              (receivePacket k i (List.replicate sizeof_XmodemPacket_t 0)).2 ::
            (sendPacket k i.sendRet k.XMODEM_CMD_CAN).2 ∧
        (mainStep k e m i).1.response = k.XMODEM_CMD_CAN) ∧
      ((e.xmodem_parsePacket m.xmodem
            (receivePacket k i (List.replicate sizeof_XmodemPacket_t 0)).2 m.response).1 ≠
              k.BOOTLOADER_ERROR_XMODEM_DONE →
          (e.xmodem_parsePacket m.xmodem
            (receivePacket k i (List.replicate sizeof_XmodemPacket_t 0)).2 m.response).2.1 ≠
              k.XMODEM_CMD_CAN →
        (mainStep k e m i).1.state = XmodemState_t.RECEIVE_DATA) ∧
      ((e.xmodem_parsePacket m.xmodem
          (receivePacket k i (List.replicate sizeof_XmodemPacket_t 0)).2 m.response).1 =
            k.BOOTLOADER_ERROR_XMODEM_DONE ∨
        (e.xmodem_parsePacket m.xmodem
          (receivePacket k i (List.replicate sizeof_XmodemPacket_t 0)).2 m.response).2.1 =
            k.XMODEM_CMD_CAN →
        (mainStep k e m i).1.state = XmodemState_t.COMPLETE)) ∧
    ((∃ d, Action.parser_parse d ∈ (mainStep k e m i).2) ↔
      (receivePacket k i (List.replicate sizeof_XmodemPacket_t 0)).1 = k.BOOTLOADER_OK ∧
      (e.xmodem_parsePacket m.xmodem
        (receivePacket k i (List.replicate sizeof_XmodemPacket_t 0)).2 m.response).1 =
          k.BOOTLOADER_OK ∧
      XmodemPacket_t.header (receivePacket k i (List.replicate sizeof_XmodemPacket_t 0)).2 =
        k.XMODEM_CMD_SOH) := by
  rw [mainStep_RECEIVE_DATA k e m i hr hs]
  unfold stepRECEIVE_DATA
  dsimp only
  generalize receivePacket k i (List.replicate sizeof_XmodemPacket_t 0) = r
  generalize hc : e.xmodem_parsePacket m.xmodem r.2 m.response = c
  constructor
  · intro hrx hne
    simp only [hrx, ne_eq, not_true_eq_false, if_false, hne, false_and]
    refine ⟨?_, trivial, trivial, ?_, ?_, ?_, ?_⟩
    · intro d
      unfold sendPacket
      split_ifs <;> simp
    · intro hd
      have hresp : (if (decide (c.1 = k.BOOTLOADER_ERROR_XMODEM_DONE) &&
          (!m.imageProps.imageCompleted || !m.imageProps.imageVerified)) = true
          then k.XMODEM_CMD_CAN else c.2.1) = c.2.1 := by
        rcases hd with hd | ⟨h1, h2⟩
        · simp [hd]
        · simp [h1, h2]
      rw [hresp]
      exact ⟨by simp, rfl⟩
    · intro hd hflags
      have hf : (!m.imageProps.imageCompleted || !m.imageProps.imageVerified) = true := by
        cases hcomp : m.imageProps.imageCompleted <;>
          cases hver : m.imageProps.imageVerified <;> simp_all
      simp only [hd, decide_True, hf, Bool.and_self, if_true]
      exact ⟨by simp, trivial⟩
    · intro hd hcan
      simp [hd, hcan, hs]
    · intro hd
      rcases hd with hd | hd
      · simp [hd]
      · by_cases hdone : c.1 = k.BOOTLOADER_ERROR_XMODEM_DONE
        · simp [hdone]
        · simp [hdone, hd]
  · by_cases hrx : r.1 = k.BOOTLOADER_OK
    · by_cases hok : c.1 = k.BOOTLOADER_OK ∧ XmodemPacket_t.header r.2 = k.XMODEM_CMD_SOH
      · simp only [hrx, ne_eq, not_true_eq_false, if_false, hok, and_self, if_true, true_and]
        simp
      · simp only [hrx, ne_eq, not_true_eq_false, if_false, hok, if_false, true_and]
        simp only [iff_false, not_exists]
        intro d
        unfold sendPacket
        split_ifs <;> simp
    · simp only [hrx, ne_eq, not_false_eq_true, if_true, false_and, iff_false, not_exists]
      intro d
      unfold sendPacket
      split_ifs <;> simp

/-- Witness for C7: a stray byte 0x15 arrives; the sample codec rejects it with NAK, which
is the byte sent, and the machine stays in `RECEIVE_DATA`. -/
theorem rejected_frame_not_parsed_witness :
    (mainStep sampleConstants (sampleEnv 0)
        (sampleMachine XmodemState_t.RECEIVE_DATA zeroProps) (byteIn 0x15)).1.state =
      XmodemState_t.RECEIVE_DATA ∧
    (mainStep sampleConstants (sampleEnv 0)
        (sampleMachine XmodemState_t.RECEIVE_DATA zeroProps) (byteIn 0x15)).1.response =
      sampleConstants.XMODEM_CMD_NAK :=
  ⟨((rejected_frame_not_parsed sampleConstants (sampleEnv 0)
      (sampleMachine XmodemState_t.RECEIVE_DATA zeroProps) (byteIn 0x15) rfl rfl).1
      (by decide) (by decide)).2.2.2.2.2.1 (by decide) (by decide),
    (((rejected_frame_not_parsed sampleConstants (sampleEnv 0)
      (sampleMachine XmodemState_t.RECEIVE_DATA zeroProps) (byteIn 0x15) rfl rfl).1
      (by decide) (by decide)).2.2.2.1 (Or.inl (by decide))).2⟩

/-! ## C8: the first parse failure aborts the transfer -/

/-- C8. In a `RECEIVE_DATA` step in which `receivePacket` and the codec return OK, the
header is start-of-frame (so the frame is handed to `parser_parse`) and `parser_parse`
returns a result other than OK: the response is set to cancel and sent three times, the
state becomes `COMPLETE`; the following `COMPLETE` step emits the aborted trailer (not the
success trailer), does not call the parser and moves to `MENU`; and from then on the parser
is not called again unless a new transfer is started, that is, `parser_init` is called by
`INIT_TRANSFER`. -/
theorem parse_failure_aborts_transfer {C P : Type} (k : Constants) (e : Env C P)
    (m : Machine C P) (i : Input) (hr : m.status = Status.running)
    (hs : m.state = XmodemState_t.RECEIVE_DATA)
    (hCA : k.XMODEM_CMD_CAN ≠ k.XMODEM_CMD_ACK)
    (hrx : (receivePacket k i (List.replicate sizeof_XmodemPacket_t 0)).1 = k.BOOTLOADER_OK)
    (hc : (e.xmodem_parsePacket m.xmodem
      (receivePacket k i (List.replicate sizeof_XmodemPacket_t 0)).2 m.response).1 =
        k.BOOTLOADER_OK)
    (hh : XmodemPacket_t.header
      (receivePacket k i (List.replicate sizeof_XmodemPacket_t 0)).2 = k.XMODEM_CMD_SOH)
    (hp : (e.parser_parse m.parserContext m.imageProps
      (XmodemPacket_t.data (receivePacket k i (List.replicate sizeof_XmodemPacket_t 0)).2)
      XMODEM_DATA_SIZE).1 ≠ k.BOOTLOADER_OK) :
    (mainStep k e m i).1.response = k.XMODEM_CMD_CAN ∧
      (mainStep k e m i).2 =
        [Action.xmodem_parsePacket
            (receivePacket k i (List.replicate sizeof_XmodemPacket_t 0)).2,
          Action.parser_parse (XmodemPacket_t.data
            (receivePacket k i (List.replicate sizeof_XmodemPacket_t 0)).2),
          Action.uart_sendByte k.XMODEM_CMD_CAN,
          Action.uart_sendByte k.XMODEM_CMD_CAN,
          Action.uart_sendByte k.XMODEM_CMD_CAN] ∧
      (mainStep k e m i).1.state = XmodemState_t.COMPLETE ∧
      (mainStep k e m i).1.status = Status.running ∧
      (∀ j, (mainStep k e (mainStep k e m i).1 j).1.state = XmodemState_t.MENU ∧
        Action.uart_sendBuffer transferAbortedStr ∈ (mainStep k e (mainStep k e m i).1 j).2 ∧
        Action.uart_sendBuffer transferCompleteStr ∉
          (mainStep k e (mainStep k e m i).1 j).2 ∧
        ∀ d, Action.parser_parse d ∉ (mainStep k e (mainStep k e m i).1 j).2) ∧
      (∀ js, (∀ flags, Action.parser_init flags ∉ (runFrom k e (mainStep k e m i).1 js).2) →
        ∀ d, Action.parser_parse d ∉ (runFrom k e (mainStep k e m i).1 js).2) := by
  have hstep : (mainStep k e m i).1.response = k.XMODEM_CMD_CAN ∧
      (mainStep k e m i).2 =
        [Action.xmodem_parsePacket
            (receivePacket k i (List.replicate sizeof_XmodemPacket_t 0)).2,
          Action.parser_parse (XmodemPacket_t.data
            (receivePacket k i (List.replicate sizeof_XmodemPacket_t 0)).2),
          Action.uart_sendByte k.XMODEM_CMD_CAN,
          Action.uart_sendByte k.XMODEM_CMD_CAN,
          Action.uart_sendByte k.XMODEM_CMD_CAN] ∧
      (mainStep k e m i).1.state = XmodemState_t.COMPLETE ∧
      (mainStep k e m i).1.status = Status.running := by
    rw [mainStep_RECEIVE_DATA k e m i hr hs]
    unfold stepRECEIVE_DATA
    dsimp only
    simp only [hrx, ne_eq, not_true_eq_false, if_false, hc, hh, and_self, if_true, hp,
      not_false_eq_true]
    simp [sendPacket, hr]
  obtain ⟨h1, h2, h3, h4⟩ := hstep
  refine ⟨h1, h2, h3, h4, ?_, ?_⟩
  · intro j
    have hne : ¬ ((mainStep k e m i).1.response = k.XMODEM_CMD_ACK ∧
        (mainStep k e m i).1.ret = k.BOOTLOADER_ERROR_XMODEM_DONE) := by
      rw [h1]
      intro hcontra
      exact hCA hcontra.1
    refine ⟨?_, ?_, ?_, ?_⟩
    · rw [mainStep_COMPLETE k e _ j h4 h3]
      exact stepCOMPLETE_state k _
    · rw [mainStep_COMPLETE k e _ j h4 h3]
      unfold stepCOMPLETE
      rw [if_neg hne]
      simp
    · rw [mainStep_COMPLETE k e _ j h4 h3]
      unfold stepCOMPLETE
      rw [if_neg hne]
      have ht := trailers_ne
      simp only [List.mem_cons, Action.uart_sendBuffer.injEq, List.mem_singleton, not_or]
      refine ⟨by simp, ht.1, ?_, by simp, by simp, by simp, by simp⟩
      split_ifs
      · exact ht.2.1
      · exact ht.2.2.1
    · intro d
      exact step_no_parse k e _ j (by rw [h3]; decide) d
  · intro js hinit d
    exact no_parse_without_init k e js _ (by rw [h3]; decide) (by rw [h3]; decide) hinit d

set_option maxRecDepth 8000 in
/-- Witness for C8: a full frame arrives in the sample machine and the sample parser
rejects it with the signature error. -/
theorem parse_failure_aborts_transfer_witness :
    (mainStep sampleConstants (sampleEnv sampleConstants.BOOTLOADER_ERROR_PARSER_SIGNATURE)
        (sampleMachine XmodemState_t.RECEIVE_DATA zeroProps)
        (frameIn 1 (List.replicate 132 7))).1.state = XmodemState_t.COMPLETE :=
  (parse_failure_aborts_transfer sampleConstants
    (sampleEnv sampleConstants.BOOTLOADER_ERROR_PARSER_SIGNATURE)
    (sampleMachine XmodemState_t.RECEIVE_DATA zeroProps)
    (frameIn 1 (List.replicate 132 7)) rfl rfl (by decide) (by decide) (by decide)
    (by decide) (by decide)).2.2.1

/-! ## C9: an unverified image is answered with cancel -/

/-- C9. With distinct cancel and acknowledge bytes and XMODEM_DONE distinct from OK: in a
`RECEIVE_DATA` step in which the codec reports XMODEM_DONE while the image is not both
completed and verified, the bytes sent are three cancel bytes (no acknowledge) and the
state becomes `COMPLETE`; and in every run of `bootloader_xmodem_communication_main`, a
`COMPLETE` step either emits the success trailer, and then the image is completed and
verified, or emits the aborted trailer (and not the success trailer). -/
theorem unverified_image_is_cancelled {C P : Type} (k : Constants) (e : Env C P)
    (hCA : k.XMODEM_CMD_CAN ≠ k.XMODEM_CMD_ACK)
    (hDONE : k.BOOTLOADER_ERROR_XMODEM_DONE ≠ k.BOOTLOADER_OK) :
    (∀ (m : Machine C P) (i : Input), m.status = Status.running →
      m.state = XmodemState_t.RECEIVE_DATA →
      (receivePacket k i (List.replicate sizeof_XmodemPacket_t 0)).1 = k.BOOTLOADER_OK →
      (e.xmodem_parsePacket m.xmodem
        (receivePacket k i (List.replicate sizeof_XmodemPacket_t 0)).2 m.response).1 =
          k.BOOTLOADER_ERROR_XMODEM_DONE →
      ¬ (m.imageProps.imageCompleted = true ∧ m.imageProps.imageVerified = true) →
      (mainStep k e m i).2 =
          [Action.xmodem_parsePacket
              (receivePacket k i (List.replicate sizeof_XmodemPacket_t 0)).2,
            Action.uart_sendByte k.XMODEM_CMD_CAN,
            Action.uart_sendByte k.XMODEM_CMD_CAN,
            Action.uart_sendByte k.XMODEM_CMD_CAN] ∧
        Action.uart_sendByte k.XMODEM_CMD_ACK ∉ (mainStep k e m i).2 ∧
        (mainStep k e m i).1.response = k.XMODEM_CMD_CAN ∧
        (mainStep k e m i).1.state = XmodemState_t.COMPLETE ∧
        (mainStep k e m i).1.imageProps = m.imageProps) ∧
    (∀ (imageProps : ImageProperties_t) (parserContext : P) (xmodem : C) (flash : Nat → Nat)
      (is : List Input) (j : Input),
      (bootloader_xmodem_communication_main k e imageProps parserContext xmodem flash
        is).1.state = XmodemState_t.COMPLETE →
      (Action.uart_sendBuffer transferCompleteStr ∈
          (mainStep k e (bootloader_xmodem_communication_main k e imageProps parserContext
            xmodem flash is).1 j).2 ∧
        Action.uart_sendBuffer transferAbortedStr ∉
          (mainStep k e (bootloader_xmodem_communication_main k e imageProps parserContext
            xmodem flash is).1 j).2 ∧
        (bootloader_xmodem_communication_main k e imageProps parserContext xmodem flash
          is).1.imageProps.imageCompleted = true ∧
        (bootloader_xmodem_communication_main k e imageProps parserContext xmodem flash
          is).1.imageProps.imageVerified = true) ∨
      (Action.uart_sendBuffer transferAbortedStr ∈
          (mainStep k e (bootloader_xmodem_communication_main k e imageProps parserContext
            xmodem flash is).1 j).2 ∧
        Action.uart_sendBuffer transferCompleteStr ∉
          (mainStep k e (bootloader_xmodem_communication_main k e imageProps parserContext
            xmodem flash is).1 j).2)) := by
  constructor
  · intro m i hr hs hrx hc hflags
    have hne : ¬ (k.BOOTLOADER_ERROR_XMODEM_DONE = k.BOOTLOADER_OK ∧
        XmodemPacket_t.header (receivePacket k i (List.replicate sizeof_XmodemPacket_t 0)).2 =
          k.XMODEM_CMD_SOH) := fun h => hDONE h.1
    have hf : (!m.imageProps.imageCompleted || !m.imageProps.imageVerified) = true := by
      cases hcomp : m.imageProps.imageCompleted <;> cases hver : m.imageProps.imageVerified <;>
        simp_all
    rw [mainStep_RECEIVE_DATA k e m i hr hs]
    unfold stepRECEIVE_DATA
    dsimp only
    simp only [hrx, ne_eq, not_true_eq_false, if_false, hc, hne, decide_True, hf,
      Bool.and_self, if_true]
    simp [sendPacket, hCA, Ne.symm hCA]
  · intro imageProps parserContext xmodem flash is j hstate
    have hinv := runFrom_invariant k e
      (fun m => m.state = XmodemState_t.COMPLETE → m.status = Status.running ∧
        (m.response = k.XMODEM_CMD_ACK ∧ m.ret = k.BOOTLOADER_ERROR_XMODEM_DONE →
          m.imageProps.imageCompleted = true ∧ m.imageProps.imageVerified = true))
      (fun m i h => complete_invariant_step k e hCA hDONE m i h) is
      (mainInit k imageProps parserContext xmodem flash)
      (by intro h; cases h)
    unfold bootloader_xmodem_communication_main at hstate ⊢
    obtain ⟨hrun, hflags⟩ := hinv hstate
    rw [mainStep_COMPLETE k e _ j hrun hstate]
    unfold stepCOMPLETE
    have ht := trailers_ne
    by_cases hcond : (runFrom k e (mainInit k imageProps parserContext xmodem flash)
        is).1.response = k.XMODEM_CMD_ACK ∧
        (runFrom k e (mainInit k imageProps parserContext xmodem flash) is).1.ret =
          k.BOOTLOADER_ERROR_XMODEM_DONE
    · left
      rw [if_pos hcond]
      obtain ⟨h1, h2⟩ := hflags hcond
      refine ⟨by simp, ?_, h1, h2⟩
      simp only [List.mem_cons, Action.uart_sendBuffer.injEq, List.mem_singleton, not_or]
      exact ⟨by simp, fun h => ht.1 h.symm, by simp⟩
    · right
      rw [if_neg hcond]
      refine ⟨by simp, ?_⟩
      simp only [List.mem_cons, Action.uart_sendBuffer.injEq, List.mem_singleton, not_or]
      refine ⟨by simp, ht.1, ?_, by simp, by simp, by simp, by simp⟩
      split_ifs
      · exact ht.2.1
      · exact ht.2.2.1

/-- Witness for C9: with the sample constants, the end-of-transmission byte arrives while
the image is completed but not verified; and a run from the initial state (command '1',
initialisation, a byte announced, end-of-transmission) reaches `COMPLETE`, where the
trailer is as the theorem says. -/
theorem unverified_image_is_cancelled_witness :
    (mainStep sampleConstants (sampleEnv 0)
        (sampleMachine XmodemState_t.RECEIVE_DATA { zeroProps with imageCompleted := true })
        (byteIn 4)).1.state = XmodemState_t.COMPLETE ∧
    (bootloader_xmodem_communication_main sampleConstants (sampleEnv 0) zeroProps () ()
        (fun _ => 0xFF) [key 49, silence, byteIn 1, byteIn 4]).1.state =
      XmodemState_t.COMPLETE ∧
    ((Action.uart_sendBuffer transferCompleteStr ∈
          (mainStep sampleConstants (sampleEnv 0)
            (bootloader_xmodem_communication_main sampleConstants (sampleEnv 0) zeroProps ()
              () (fun _ => 0xFF) [key 49, silence, byteIn 1, byteIn 4]).1 silence).2 ∧
        Action.uart_sendBuffer transferAbortedStr ∉
          (mainStep sampleConstants (sampleEnv 0)
            (bootloader_xmodem_communication_main sampleConstants (sampleEnv 0) zeroProps ()
              () (fun _ => 0xFF) [key 49, silence, byteIn 1, byteIn 4]).1 silence).2 ∧
        (bootloader_xmodem_communication_main sampleConstants (sampleEnv 0) zeroProps () ()
          (fun _ => 0xFF)
          [key 49, silence, byteIn 1, byteIn 4]).1.imageProps.imageCompleted = true ∧
        (bootloader_xmodem_communication_main sampleConstants (sampleEnv 0) zeroProps () ()
          (fun _ => 0xFF)
          [key 49, silence, byteIn 1, byteIn 4]).1.imageProps.imageVerified = true) ∨
      (Action.uart_sendBuffer transferAbortedStr ∈
          (mainStep sampleConstants (sampleEnv 0)
            (bootloader_xmodem_communication_main sampleConstants (sampleEnv 0) zeroProps ()
              () (fun _ => 0xFF) [key 49, silence, byteIn 1, byteIn 4]).1 silence).2 ∧
        Action.uart_sendBuffer transferCompleteStr ∉
          (mainStep sampleConstants (sampleEnv 0)
            (bootloader_xmodem_communication_main sampleConstants (sampleEnv 0) zeroProps ()
              () (fun _ => 0xFF) [key 49, silence, byteIn 1, byteIn 4]).1 silence).2)) :=
  ⟨((unverified_image_is_cancelled sampleConstants (sampleEnv 0) (by decide) (by decide)).1
      (sampleMachine XmodemState_t.RECEIVE_DATA { zeroProps with imageCompleted := true })
      (byteIn 4) rfl rfl (by decide) (by decide) (by decide)).2.2.2.1,
    by decide,
    (unverified_image_is_cancelled sampleConstants (sampleEnv 0) (by decide) (by decide)).2
      zeroProps () () (fun _ => 0xFF) [key 49, silence, byteIn 1, byteIn 4] silence
      (by decide)⟩

/-! ## C10: `sendPacket` -/

/-- C10. For every byte `b`, the bytes that `sendPacket` passes to `uart_sendByte` are
`[b, b, b]` when `b` is the cancel byte and `[b]` otherwise, and the value returned is the
result of the first send. -/
theorem sendPacket_cancel_three_times (k : Constants) (sendRet : Nat → Int) (b : Nat) :
    (sendPacket k sendRet b).2 =
        (if b = k.XMODEM_CMD_CAN then
          [Action.uart_sendByte b, Action.uart_sendByte b, Action.uart_sendByte b]
        else [Action.uart_sendByte b]) ∧
      (sendPacket k sendRet b).1 = sendRet 0 := by
  unfold sendPacket
  by_cases h : b = k.XMODEM_CMD_CAN <;> simp [h]

/-! ## C11: the command table of `getAction` -/

/-- C11. `getAction` maps what it receives to the next state as follows: nothing within the
poll timeout gives `IDLE`; '1' gives `INIT_TRANSFER`; '2' gives `BOOT`; '3' gives `MENU`;
'4' gives `CONFIRM_ERASE_NVM` and is the only case that transmits (the confirmation
prompt); 'y' gives `ERASE_NVM` if and only if `confirm_erase` is set and `MENU` otherwise;
every other byte gives `MENU`.  The result is a function of the received byte and the flag
alone, and it is the next state of every `IDLE` step of a running machine. -/
theorem getAction_command_table (confirm_erase : Bool) :
    getAction confirm_erase none = (XmodemState_t.IDLE, []) ∧
      getAction confirm_erase (some 49) = (XmodemState_t.INIT_TRANSFER, []) ∧
      getAction confirm_erase (some 50) = (XmodemState_t.BOOT, []) ∧
      getAction confirm_erase (some 51) = (XmodemState_t.MENU, []) ∧
      getAction confirm_erase (some 52) =
        (XmodemState_t.CONFIRM_ERASE_NVM,
          [Action.uart_sendBuffer (cstr "\r\nAre you sure? (y/n) > ")]) ∧
      getAction true (some 121) = (XmodemState_t.ERASE_NVM, []) ∧
      getAction false (some 121) = (XmodemState_t.MENU, []) ∧
      ((getAction confirm_erase (some 121)).1 = XmodemState_t.ERASE_NVM ↔
        confirm_erase = true) ∧
      (∀ c : Nat, c ≠ 49 → c ≠ 50 → c ≠ 51 → c ≠ 52 → c ≠ 121 →
        getAction confirm_erase (some c) = (XmodemState_t.MENU, [])) ∧
      (∀ (C P : Type) (k : Constants) (e : Env C P) (m : Machine C P) (i : Input),
        m.status = Status.running → m.state = XmodemState_t.IDLE →
        (mainStep k e m i).1.state = (getAction m.confirm_erase i.command).1) := by
  refine ⟨rfl, rfl, rfl, rfl, rfl, rfl, rfl, ?_, ?_, ?_⟩
  · cases confirm_erase <;> simp [getAction]
  · intro c h1 h2 h3 h4 h5
    simp [getAction, h1, h2, h3, h4, h5]
  · intro C P k e m i hr hs
    rw [mainStep_IDLE k e m i hr hs]
    exact stepIDLE_state k m i

/-- Witness for C11: the byte 'x' (120) is none of the commands and yields `MENU`; an
`IDLE` step of the sample machine that receives '2' goes to `BOOT`. -/
theorem getAction_command_table_witness :
    getAction true (some 120) = (XmodemState_t.MENU, []) ∧
      (mainStep sampleConstants (sampleEnv 0) (sampleMachine XmodemState_t.IDLE zeroProps)
        (key 50)).1.state = XmodemState_t.BOOT :=
  ⟨(getAction_command_table true).2.2.2.2.2.2.2.2.1 120 (by decide) (by decide) (by decide)
      (by decide) (by decide),
    (getAction_command_table false).2.2.2.2.2.2.2.2.2 Unit Unit sampleConstants (sampleEnv 0)
      (sampleMachine XmodemState_t.IDLE zeroProps) (key 50) rfl rfl⟩

/-! ## C12: the decision order of `BOOT` -/

/-- C12, counterexample to the claim as stated. A completed and verified image carries both
secure-element content, whose version is not accepted, and bootloader content of version 2,
newer than the running version 1.  The claim has the bootloader upgrade committed; the
`BOOT` step calls nothing at all and the state becomes `MENU`. -/
theorem boot_order_counterexample :
    strictEnv.bootload_checkSeUpgradeVersion 0 = false ∧
      (6 : Nat) &&& sampleConstants.BTL_IMAGE_CONTENT_SE ≠ 0 ∧
      (6 : Nat) &&& sampleConstants.BTL_IMAGE_CONTENT_BOOTLOADER ≠ 0 ∧
      strictEnv.bootload_getBootloaderVersion < 2 ∧
      (mainStep sampleConstants strictEnv
        (sampleMachine XmodemState_t.BOOT
          { zeroProps with
              imageCompleted := true, imageVerified := true, contents := 6,
              bootloaderVersion := 2, bootloaderUpgradeSize := 77 })
        silence).2 = [] ∧
      (mainStep sampleConstants strictEnv
        (sampleMachine XmodemState_t.BOOT
          { zeroProps with
              imageCompleted := true, imageVerified := true, contents := 6,
              bootloaderVersion := 2, bootloaderUpgradeSize := 77 })
        silence).1.state = XmodemState_t.MENU := by
  decide

/-- C12 as amended. In a `BOOT` step with a completed and verified image: (1) in a build
with secure-element support, if secure-element content is staged, the secure-element
upgrade is committed when `bootload_checkSeUpgradeVersion` accepts its version and nothing
is called when it does not, and in either case nothing else is done; (2) otherwise, if
bootloader content is staged, the bootloader upgrade is committed, with the recorded
upgrade size, when its version is strictly greater than the running one, and is not
committed when it is not; (3) otherwise the device is reset with reason GO.  In no case is
a bootloader upgrade committed whose version is not newer than the running one. -/
theorem boot_decision_order {C P : Type} (k : Constants) (e : Env C P) (m : Machine C P)
    (i : Input) (hr : m.status = Status.running) (hs : m.state = XmodemState_t.BOOT)
    (hc : m.imageProps.imageCompleted = true) (hv : m.imageProps.imageVerified = true) :
    ((k.SE_PRESENT = true ∧ m.imageProps.contents &&& k.BTL_IMAGE_CONTENT_SE ≠ 0) →
        (e.bootload_checkSeUpgradeVersion m.imageProps.seUpgradeVersion = true →
          (mainStep k e m i).2 = [Action.bootload_commitSeUpgrade]) ∧
        (e.bootload_checkSeUpgradeVersion m.imageProps.seUpgradeVersion = false →
          (mainStep k e m i).2 = [])) ∧
      (¬ (k.SE_PRESENT = true ∧ m.imageProps.contents &&& k.BTL_IMAGE_CONTENT_SE ≠ 0) →
        m.imageProps.contents &&& k.BTL_IMAGE_CONTENT_BOOTLOADER ≠ 0 →
        (m.imageProps.bootloaderVersion > e.bootload_getBootloaderVersion →
          (mainStep k e m i).2 =
            Action.bootload_commitBootloaderUpgrade m.imageProps.bootloaderUpgradeSize ::
              (if i.callReturns then [Action.uart_sendBuffer bootError] else [])) ∧
        (¬ m.imageProps.bootloaderVersion > e.bootload_getBootloaderVersion →
          (mainStep k e m i).2 = [Action.uart_sendBuffer bootError])) ∧
      (¬ (k.SE_PRESENT = true ∧ m.imageProps.contents &&& k.BTL_IMAGE_CONTENT_SE ≠ 0) →
        m.imageProps.contents &&& k.BTL_IMAGE_CONTENT_BOOTLOADER = 0 →
        (mainStep k e m i).2 =
          Action.reset_resetWithReason ResetReason.BOOTLOADER_RESET_REASON_GO ::
            (if i.callReturns then [Action.uart_sendBuffer bootError] else [])) ∧
      (¬ m.imageProps.bootloaderVersion > e.bootload_getBootloaderVersion →
        ∀ size, Action.bootload_commitBootloaderUpgrade size ∉ (mainStep k e m i).2) := by
  rw [mainStep_BOOT k e m i hr hs]
  unfold stepBOOT callNoReturn
  simp only [hc, hv, Bool.and_self, if_true]
  refine ⟨?_, ?_, ?_, ?_⟩
  · rintro ⟨h1, h2⟩
    simp only [h1, h2, ne_eq, not_false_eq_true, decide_True, Bool.and_self, if_true]
    constructor
    · intro h3
      simp only [h3, if_true]
      cases i.callReturns <;> rfl
    · intro h3
      simp [h3]
  · intro hse hbl
    have hse2 : (k.SE_PRESENT && decide (m.imageProps.contents &&& k.BTL_IMAGE_CONTENT_SE ≠ 0))
        = false := by
      cases hp : k.SE_PRESENT
      · simp
      · simp only [hp, true_and, ne_eq, not_not] at hse
        simp [hse]
    simp only [hse2, Bool.false_eq_true, if_false, hbl, ne_eq, not_false_eq_true, if_true]
    constructor
    · intro hgt
      simp only [hgt, if_true]
      cases i.callReturns <;> rfl
    · intro hgt
      simp [hgt]
  · intro hse hbl
    have hse2 : (k.SE_PRESENT && decide (m.imageProps.contents &&& k.BTL_IMAGE_CONTENT_SE ≠ 0))
        = false := by
      cases hp : k.SE_PRESENT
      · simp
      · simp only [hp, true_and, ne_eq, not_not] at hse
        simp [hse]
    simp only [hse2, Bool.false_eq_true, if_false, hbl, ne_eq, not_true_eq_false]
    cases i.callReturns <;> rfl
  · intro hgt size
    simp only [hgt, if_false]
    split_ifs <;> simp

/-- Witness for C12 as amended: bootloader content of version 2 in the sample machine is
committed with its recorded size. -/
theorem boot_decision_order_witness :
    (mainStep sampleConstants (sampleEnv 0)
        (sampleMachine XmodemState_t.BOOT
          { zeroProps with
              imageCompleted := true, imageVerified := true, contents := 4,
              bootloaderVersion := 2, bootloaderUpgradeSize := 77 })
        silence).2 = [Action.bootload_commitBootloaderUpgrade 77] :=
  ((boot_decision_order sampleConstants (sampleEnv 0)
    (sampleMachine XmodemState_t.BOOT
      { zeroProps with
          imageCompleted := true, imageVerified := true, contents := 4,
          bootloaderVersion := 2, bootloaderUpgradeSize := 77 })
    silence rfl rfl rfl rfl).2.1 (by decide) (by decide)).1 (by decide)

/-! ## C13: failure reports of `BOOT` -/

/-- C13, counterexample to the claim as stated. A completed and verified image with
secure-element content whose version is accepted; `bootload_commitSeUpgrade` is called and
comes back (the upgrade failed).  Control is back in the state machine, in `MENU`, and the
report "Failed to boot" has not been sent.  The same happens, without any call, when the
version is not accepted. -/
theorem boot_report_counterexample :
    (mainStep sampleConstants (sampleEnv 0)
        (sampleMachine XmodemState_t.BOOT
          { zeroProps with imageCompleted := true, imageVerified := true, contents := 2 })
        { silence with callReturns := true }).2 = [Action.bootload_commitSeUpgrade] ∧
      (mainStep sampleConstants (sampleEnv 0)
        (sampleMachine XmodemState_t.BOOT
          { zeroProps with imageCompleted := true, imageVerified := true, contents := 2 })
        { silence with callReturns := true }).1.status = Status.running ∧
      (mainStep sampleConstants (sampleEnv 0)
        (sampleMachine XmodemState_t.BOOT
          { zeroProps with imageCompleted := true, imageVerified := true, contents := 2 })
        { silence with callReturns := true }).1.state = XmodemState_t.MENU ∧
      Action.uart_sendBuffer bootError ∉
        (mainStep sampleConstants (sampleEnv 0)
          (sampleMachine XmodemState_t.BOOT
            { zeroProps with imageCompleted := true, imageVerified := true, contents := 2 })
          { silence with callReturns := true }).2 ∧
      (mainStep sampleConstants strictEnv
        (sampleMachine XmodemState_t.BOOT
          { zeroProps with imageCompleted := true, imageVerified := true, contents := 2 })
        silence).2 = [] ∧
      (mainStep sampleConstants strictEnv
        (sampleMachine XmodemState_t.BOOT
          { zeroProps with imageCompleted := true, imageVerified := true, contents := 2 })
        silence).1.status = Status.running := by
  decide

/-- C13 as amended. In every `BOOT` step with a completed and verified image the state
variable is set to `MENU`.  When the step does not take the secure-element branch (the
build has no secure-element support, or no secure-element content is staged) and control
comes back to the state machine (the bootloader commit returns, the staged bootloader
version is not newer so that nothing is committed, or the reset with reason GO returns),
the report "Failed to boot" is sent, as the last thing the step does. -/
theorem boot_failure_is_reported {C P : Type} (k : Constants) (e : Env C P)
    (m : Machine C P) (i : Input) (hr : m.status = Status.running)
    (hs : m.state = XmodemState_t.BOOT)
    (hc : m.imageProps.imageCompleted = true) (hv : m.imageProps.imageVerified = true) :
    (mainStep k e m i).1.state = XmodemState_t.MENU ∧
      (¬ (k.SE_PRESENT = true ∧ m.imageProps.contents &&& k.BTL_IMAGE_CONTENT_SE ≠ 0) →
        ((mainStep k e m i).1.status = Status.running →
          ∃ calls, (mainStep k e m i).2 = calls ++ [Action.uart_sendBuffer bootError]) ∧
        (i.callReturns = true → (mainStep k e m i).1.status = Status.running) ∧
        (m.imageProps.contents &&& k.BTL_IMAGE_CONTENT_BOOTLOADER ≠ 0 →
          ¬ m.imageProps.bootloaderVersion > e.bootload_getBootloaderVersion →
          (mainStep k e m i).1.status = Status.running ∧
          (mainStep k e m i).2 = [Action.uart_sendBuffer bootError])) := by
  refine ⟨?_, ?_⟩
  · rw [mainStep_BOOT k e m i hr hs]
    exact stepBOOT_state k e m i
  · intro hse
    have hse2 : (k.SE_PRESENT && decide (m.imageProps.contents &&& k.BTL_IMAGE_CONTENT_SE ≠ 0))
        = false := by
      cases hp : k.SE_PRESENT
      · simp
      · simp only [hp, true_and, ne_eq, not_not] at hse
        simp [hse]
    rw [mainStep_BOOT k e m i hr hs]
    unfold stepBOOT callNoReturn
    simp only [hc, hv, Bool.and_self, if_true, hse2, Bool.false_eq_true, if_false]
    refine ⟨?_, ?_, ?_⟩
    · by_cases hbl : m.imageProps.contents &&& k.BTL_IMAGE_CONTENT_BOOTLOADER ≠ 0
      · rw [if_pos hbl]
        by_cases hgt : m.imageProps.bootloaderVersion > e.bootload_getBootloaderVersion
        · rw [if_pos hgt]
          cases hret : i.callReturns
          · simp
          · intro _
            exact ⟨[Action.bootload_commitBootloaderUpgrade
              m.imageProps.bootloaderUpgradeSize], by simp⟩
        · rw [if_neg hgt]
          intro _
          exact ⟨[], rfl⟩
      · rw [if_neg hbl]
        cases hret : i.callReturns
        · simp
        · intro _
          exact ⟨[Action.reset_resetWithReason ResetReason.BOOTLOADER_RESET_REASON_GO],
            by simp⟩
    · intro hret
      simp only [hret, if_true]
      split_ifs <;> exact hr
    · intro hbl hgt
      rw [if_pos hbl, if_neg hgt]
      exact ⟨hr, rfl⟩

/-- Witness for C13 as amended: in the sample machine the commit of a newer bootloader
comes back, and the report follows it. -/
theorem boot_failure_is_reported_witness :
    ∃ calls,
      (mainStep sampleConstants (sampleEnv 0)
        (sampleMachine XmodemState_t.BOOT
          { zeroProps with
              imageCompleted := true, imageVerified := true, contents := 4,
              bootloaderVersion := 2, bootloaderUpgradeSize := 77 })
        { silence with callReturns := true }).2 =
        calls ++ [Action.uart_sendBuffer bootError] :=
  ((boot_failure_is_reported sampleConstants (sampleEnv 0)
    (sampleMachine XmodemState_t.BOOT
      { zeroProps with
          imageCompleted := true, imageVerified := true, contents := 4,
          bootloaderVersion := 2, bootloaderUpgradeSize := 77 })
    { silence with callReturns := true } rfl rfl rfl rfl).2 (by decide)).1 (by decide)

/-! ## C14: the status code reported on abort -/

/-- C14. (1) On the failure path of a `COMPLETE` step (with `response` a byte) the machine
sends the aborted trailer, the error text, and then exactly two characters, `nibbleToHex`
of the high nibble followed by `nibbleToHex` of the low nibble of the status byte, followed
by CR LF.  (2) For every nibble `n` in 0..15, `nibbleToHex n` is the upper-case
hexadecimal digit of `n`.  (3) With pairwise distinct case labels, as C requires of a
`switch`, the status byte is 0x21 for NO_SOH, 0x22 for PKTNUM, 0x23 for CRCL, 0x24 for
CRCH, 0x25 for PKTSEQ, 0x27 for PKTDUP, 0x41 for parser VERSION, 0x43 for CRC, 0x44 for
UNKNOWN_TAG, 0x45 for SIGNATURE, 0x4F for FILETYPE, UNEXPECTED and EOF, 0x50 for KEYERROR.
(4) The status bytes of different error categories (bad frame header; sequence mismatch;
checksum mismatch; duplicate sequence; container version mismatch; digest mismatch;
unknown tag; signature invalid; malformed, unexpected or truncated stream) differ. -/
theorem abort_reports_status_byte (k : Constants)
    (hL : [k.BOOTLOADER_ERROR_XMODEM_NO_SOH, k.BOOTLOADER_ERROR_XMODEM_PKTNUM,
      k.BOOTLOADER_ERROR_XMODEM_CRCL, k.BOOTLOADER_ERROR_XMODEM_CRCH,
      k.BOOTLOADER_ERROR_XMODEM_PKTSEQ, k.BOOTLOADER_ERROR_XMODEM_PKTDUP,
      k.BOOTLOADER_ERROR_PARSER_VERSION, k.BOOTLOADER_ERROR_PARSER_CRC,
      k.BOOTLOADER_ERROR_PARSER_UNKNOWN_TAG, k.BOOTLOADER_ERROR_PARSER_SIGNATURE,
      k.BOOTLOADER_ERROR_PARSER_FILETYPE, k.BOOTLOADER_ERROR_PARSER_UNEXPECTED,
      k.BOOTLOADER_ERROR_PARSER_EOF, k.BOOTLOADER_ERROR_PARSER_KEYERROR].Nodup) :
    (∀ (C P : Type) (e : Env C P) (m : Machine C P) (i : Input),
      m.status = Status.running → m.state = XmodemState_t.COMPLETE →
      ¬ (m.response = k.XMODEM_CMD_ACK ∧ m.ret = k.BOOTLOADER_ERROR_XMODEM_DONE) →
      m.response < 256 →
      (mainStep k e m i).2 =
          [Action.uart_flush, Action.uart_sendBuffer transferAbortedStr,
            Action.uart_sendBuffer
              (if k.BOOTLOADER_ERROR_XMODEM_BASE ≤ m.ret ∧
                  m.ret < k.BOOTLOADER_ERROR_PARSER_BASE then xmodemError else fileError),
            Action.uart_sendByte (nibbleToHex (statusByte k m.ret m.response / 16)),
            Action.uart_sendByte (nibbleToHex (statusByte k m.ret m.response % 16)),
            Action.uart_sendByte 13, Action.uart_sendByte 10] ∧
        statusByte k m.ret m.response / 16 < 16 ∧
        statusByte k m.ret m.response % 16 < 16 ∧
        statusByte k m.ret m.response =
          16 * (statusByte k m.ret m.response / 16) + statusByte k m.ret m.response % 16 ∧
        (mainStep k e m i).1.response = statusByte k m.ret m.response ∧
        (mainStep k e m i).1.state = XmodemState_t.MENU) ∧
    (∀ n, n < 16 → nibbleToHex n = ("0123456789ABCDEF".toList.getD n '0').toNat) ∧
    (∀ r : Nat,
      statusByte k k.BOOTLOADER_ERROR_XMODEM_NO_SOH r = 0x21 ∧
      statusByte k k.BOOTLOADER_ERROR_XMODEM_PKTNUM r = 0x22 ∧
      statusByte k k.BOOTLOADER_ERROR_XMODEM_CRCL r = 0x23 ∧
      statusByte k k.BOOTLOADER_ERROR_XMODEM_CRCH r = 0x24 ∧
      statusByte k k.BOOTLOADER_ERROR_XMODEM_PKTSEQ r = 0x25 ∧
      statusByte k k.BOOTLOADER_ERROR_XMODEM_PKTDUP r = 0x27 ∧
      statusByte k k.BOOTLOADER_ERROR_PARSER_VERSION r = 0x41 ∧
      statusByte k k.BOOTLOADER_ERROR_PARSER_CRC r = 0x43 ∧
      statusByte k k.BOOTLOADER_ERROR_PARSER_UNKNOWN_TAG r = 0x44 ∧
      statusByte k k.BOOTLOADER_ERROR_PARSER_SIGNATURE r = 0x45 ∧
      statusByte k k.BOOTLOADER_ERROR_PARSER_FILETYPE r = 0x4F ∧
      statusByte k k.BOOTLOADER_ERROR_PARSER_UNEXPECTED r = 0x4F ∧
      statusByte k k.BOOTLOADER_ERROR_PARSER_EOF r = 0x4F ∧
      statusByte k k.BOOTLOADER_ERROR_PARSER_KEYERROR r = 0x50) ∧
    (∀ r : Nat,
      List.Pairwise (fun a b : List Nat => ∀ x ∈ a, ∀ y ∈ b, x ≠ y)
        ([[k.BOOTLOADER_ERROR_XMODEM_NO_SOH],
          [k.BOOTLOADER_ERROR_XMODEM_PKTNUM, k.BOOTLOADER_ERROR_XMODEM_PKTSEQ],
          [k.BOOTLOADER_ERROR_XMODEM_CRCL, k.BOOTLOADER_ERROR_XMODEM_CRCH],
          [k.BOOTLOADER_ERROR_XMODEM_PKTDUP],
          [k.BOOTLOADER_ERROR_PARSER_VERSION],
          [k.BOOTLOADER_ERROR_PARSER_CRC],
          [k.BOOTLOADER_ERROR_PARSER_UNKNOWN_TAG],
          [k.BOOTLOADER_ERROR_PARSER_SIGNATURE],
          [k.BOOTLOADER_ERROR_PARSER_FILETYPE, k.BOOTLOADER_ERROR_PARSER_UNEXPECTED,
            k.BOOTLOADER_ERROR_PARSER_EOF]].map
          (List.map (fun ret => statusByte k ret r)))) := by
  have htable : ∀ r : Nat,
      statusByte k k.BOOTLOADER_ERROR_XMODEM_NO_SOH r = 0x21 ∧
      statusByte k k.BOOTLOADER_ERROR_XMODEM_PKTNUM r = 0x22 ∧
      statusByte k k.BOOTLOADER_ERROR_XMODEM_CRCL r = 0x23 ∧
      statusByte k k.BOOTLOADER_ERROR_XMODEM_CRCH r = 0x24 ∧
      statusByte k k.BOOTLOADER_ERROR_XMODEM_PKTSEQ r = 0x25 ∧
      statusByte k k.BOOTLOADER_ERROR_XMODEM_PKTDUP r = 0x27 ∧
      statusByte k k.BOOTLOADER_ERROR_PARSER_VERSION r = 0x41 ∧
      statusByte k k.BOOTLOADER_ERROR_PARSER_CRC r = 0x43 ∧
      statusByte k k.BOOTLOADER_ERROR_PARSER_UNKNOWN_TAG r = 0x44 ∧
      statusByte k k.BOOTLOADER_ERROR_PARSER_SIGNATURE r = 0x45 ∧
      statusByte k k.BOOTLOADER_ERROR_PARSER_FILETYPE r = 0x4F ∧
      statusByte k k.BOOTLOADER_ERROR_PARSER_UNEXPECTED r = 0x4F ∧
      statusByte k k.BOOTLOADER_ERROR_PARSER_EOF r = 0x4F ∧
      statusByte k k.BOOTLOADER_ERROR_PARSER_KEYERROR r = 0x50 := by
    intro r
    have hR := List.nodup_reverse.mpr hL
    simp only [List.reverse_cons, List.reverse_nil, List.nil_append, List.cons_append,
      List.nodup_cons, List.mem_cons, List.mem_singleton, not_or, List.not_mem_nil,
      not_false_eq_true, List.nodup_nil, and_true] at hR
    obtain ⟨h14, h13, h12, h11, h10, h9, h8, h7, h6, h5, h4, h3, h2⟩ := hR
    unfold statusByte
    refine ⟨?_, ?_, ?_, ?_, ?_, ?_, ?_, ?_, ?_, ?_, ?_, ?_, ?_, ?_⟩
    · simp only [if_true]
    · simp only [h2, if_false, if_true]
    · simp only [h3, if_false, if_true]
    · simp only [h4, if_false, if_true]
    · simp only [h5, if_false, if_true]
    · simp only [h6, if_false, if_true]
    · simp only [h7, if_false, if_true]
    · simp only [h8, if_false, if_true]
    · simp only [h9, if_false, if_true]
    · simp only [h10, if_false, if_true]
    · simp only [h11, if_false, if_true]
    · simp only [h12, if_false, if_true]
    · simp only [h13, if_false, if_true]
    · simp only [h14, if_false, if_true]
  refine ⟨?_, ?_, htable, ?_⟩
  · intro C P e m i hr hs hfail hbyte
    have hsb := statusByte_lt k m.ret m.response hbyte
    rw [mainStep_COMPLETE k e m i hr hs]
    unfold stepCOMPLETE
    rw [if_neg hfail]
    simp only [shiftRight_four, and_fifteen]
    refine ⟨?_, ?_, ?_, ?_, ?_, ?_⟩ <;> first | trivial | rfl | omega
  · decide
  · intro r
    obtain ⟨h1, h2, h3, h4, h5, h6, h7, h8, h9, h10, h11, h12, h13, -⟩ := htable r
    simp only [List.map_cons, List.map_nil, h1, h2, h3, h4, h5, h6, h7, h8, h9, h10, h11, h12,
      h13]
    decide

/-- Witness for C14: with the sample constants, a `COMPLETE` step after the parser's
signature error reports "45". -/
theorem abort_reports_status_byte_witness :
    (mainStep sampleConstants (sampleEnv 0)
        { sampleMachine XmodemState_t.COMPLETE zeroProps with
            ret := sampleConstants.BOOTLOADER_ERROR_PARSER_SIGNATURE, response := 0x18 }
        silence).2 =
      [Action.uart_flush, Action.uart_sendBuffer transferAbortedStr,
        Action.uart_sendBuffer fileError,
        Action.uart_sendByte 52, Action.uart_sendByte 53,
        Action.uart_sendByte 13, Action.uart_sendByte 10] :=
  ((abort_reports_status_byte sampleConstants (by decide)).1 Unit Unit (sampleEnv 0)
    { sampleMachine XmodemState_t.COMPLETE zeroProps with
        ret := sampleConstants.BOOTLOADER_ERROR_PARSER_SIGNATURE, response := 0x18 }
    silence rfl rfl (by decide) (by decide)).1

/-! ## C15: `INIT_TRANSFER` starts from fresh image state -/

/-- C15. For every machine in `INIT_TRANSFER`, whatever its image properties hold: after
the step the image properties are those produced by `memset` and the assignments that
follow it (every member zero, `imageCompleted` and `imageVerified` false; the secure build
then sets `instructions` to 0xFF), the parser context is the result of `parser_init`, which
has been called, the next state is `WAIT_FOR_DATA`, and the image properties are the same
as after an `INIT_TRANSFER` step of any other machine. -/
theorem init_transfer_resets_image {C P : Type} (k : Constants) (e : Env C P)
    (m : Machine C P) (i : Input) (hr : m.status = Status.running)
    (hs : m.state = XmodemState_t.INIT_TRANSFER) :
    (mainStep k e m i).1.imageProps = freshImageProps k ∧
      (mainStep k e m i).1.imageProps.imageCompleted = false ∧
      (mainStep k e m i).1.imageProps.imageVerified = false ∧
      (mainStep k e m i).1.imageProps.contents = 0 ∧
      (mainStep k e m i).1.imageProps.bootloaderVersion = 0 ∧
      (mainStep k e m i).1.imageProps.seUpgradeVersion = 0 ∧
      (mainStep k e m i).1.imageProps.bootloaderUpgradeSize = 0 ∧
      (mainStep k e m i).1.imageProps.instructions =
        (if k.BOOTLOADER_NONSECURE then 0 else 0xFF) ∧
      (mainStep k e m i).1.parserContext =
        e.parser_init m.parserContext k.PARSER_FLAG_PARSE_CUSTOM_TAGS ∧
      Action.parser_init k.PARSER_FLAG_PARSE_CUSTOM_TAGS ∈ (mainStep k e m i).2 ∧
      (mainStep k e m i).1.state = XmodemState_t.WAIT_FOR_DATA ∧
      (mainStep k e m i).1.status = Status.running ∧
      (∀ (m2 : Machine C P) (i2 : Input), m2.status = Status.running →
        m2.state = XmodemState_t.INIT_TRANSFER →
        (mainStep k e m2 i2).1.imageProps = (mainStep k e m i).1.imageProps) := by
  rw [mainStep_INIT_TRANSFER k e m i hr hs]
  refine ⟨rfl, rfl, rfl, rfl, rfl, rfl, rfl, rfl, rfl, ?_, rfl, hr, ?_⟩
  · simp [stepINIT_TRANSFER]
  · intro m2 i2 hr2 hs2
    rw [mainStep_INIT_TRANSFER k e m2 i2 hr2 hs2]
    rfl

/-- Witness for C15: an `INIT_TRANSFER` step of the sample machine whose image properties
were left completed and verified by an earlier transfer. -/
theorem init_transfer_resets_image_witness :
    (mainStep sampleConstants (sampleEnv 0)
        (sampleMachine XmodemState_t.INIT_TRANSFER
          { zeroProps with imageCompleted := true, imageVerified := true, contents := 4 })
        silence).1.imageProps = freshImageProps sampleConstants :=
  (init_transfer_resets_image sampleConstants (sampleEnv 0)
    (sampleMachine XmodemState_t.INIT_TRANSFER
      { zeroProps with imageCompleted := true, imageVerified := true, contents := 4 })
    silence rfl rfl).1

/-! ## C16: the idle timeout budget -/

/-- C16. In a build with `BTL_XMODEM_IDLE_TIMEOUT = T > 0`: (a) the budget is `T` when the
loop is entered; (b) from `IDLE` with budget `T`, fewer than `T` consecutive polls without
input issue no reset (nothing is called, the machine stays in `IDLE`), and `T` such polls
issue exactly one reset, with reason TIMEOUT, at the last of them; (c) an `IDLE` step
issues the timeout reset exactly when it receives nothing and uses up the last unit of the
budget; (d) an `IDLE` step that receives a byte restores the idle budget to `T`, sets the
packet-retry budget to 60 and issues no reset. -/
theorem idle_timeout_budget {C P : Type} (k : Constants) (e : Env C P)
    (hT : 0 < k.BTL_XMODEM_IDLE_TIMEOUT) :
    (∀ (imageProps : ImageProperties_t) (parserContext : P) (xmodem : C) (flash : Nat → Nat),
      (mainInit k imageProps parserContext xmodem flash).idleTimeout =
          k.BTL_XMODEM_IDLE_TIMEOUT ∧
        (mainInit k imageProps parserContext xmodem flash).state = XmodemState_t.IDLE ∧
        (mainInit k imageProps parserContext xmodem flash).status = Status.running) ∧
    (∀ (m : Machine C P) (is : List Input), m.status = Status.running →
      m.state = XmodemState_t.IDLE → m.idleTimeout = k.BTL_XMODEM_IDLE_TIMEOUT →
      (∀ i ∈ is, i.command = none) →
      ((is.length : Int) < k.BTL_XMODEM_IDLE_TIMEOUT →
        (runFrom k e m is).2 = [] ∧
        (runFrom k e m is).1.state = XmodemState_t.IDLE ∧
        (runFrom k e m is).1.status = Status.running ∧
        (runFrom k e m is).1.idleTimeout = k.BTL_XMODEM_IDLE_TIMEOUT - is.length) ∧
      ((is.length : Int) = k.BTL_XMODEM_IDLE_TIMEOUT →
        (runFrom k e m is).2 =
          [Action.reset_resetWithReason ResetReason.BOOTLOADER_RESET_REASON_TIMEOUT])) ∧
    (∀ (m : Machine C P) (i : Input), m.status = Status.running →
      m.state = XmodemState_t.IDLE →
      (Action.reset_resetWithReason ResetReason.BOOTLOADER_RESET_REASON_TIMEOUT ∈
          (mainStep k e m i).2 ↔
        i.command = none ∧ m.idleTimeout - 1 = 0)) ∧
    (∀ (m : Machine C P) (i : Input) (c : Nat), m.status = Status.running →
      m.state = XmodemState_t.IDLE → i.command = some c →
      (mainStep k e m i).1.idleTimeout = k.BTL_XMODEM_IDLE_TIMEOUT ∧
      (mainStep k e m i).1.packetTimeout = 60 ∧
      (mainStep k e m i).1.status = Status.running ∧
      ∀ reason, Action.reset_resetWithReason reason ∉ (mainStep k e m i).2) := by
  refine ⟨fun _ _ _ _ => ⟨rfl, rfl, rfl⟩, ?_, ?_, ?_⟩
  · intro m is hr hs hb hsil
    constructor
    · intro hlen
      obtain ⟨h1, h2, h3, h4, -⟩ :=
        idle_silent_below_budget k e hT is m hr hs hsil (by rw [hb]; exact hlen)
      exact ⟨h1, h2, h3, by rw [h4, hb]⟩
    · intro hlen
      rcases List.eq_nil_or_concat is with hnil | ⟨is1, x, hx⟩
      · rw [hnil] at hlen
        simp only [List.length_nil, Nat.cast_zero] at hlen
        omega
      · rw [List.concat_eq_append] at hx
        subst hx
        have hlen1 : (is1.length : Int) + 1 = k.BTL_XMODEM_IDLE_TIMEOUT := by
          simpa using hlen
        have hx : x.command = none := hsil x (by simp)
        obtain ⟨h1, h2, h3, h4, -⟩ := idle_silent_below_budget k e hT is1 m hr hs
          (fun j hj => hsil j (List.mem_append_left _ hj)) (by rw [hb]; omega)
        rw [runFrom_snoc]
        dsimp only
        rw [h1, mainStep_IDLE k e _ x h3 h2,
          stepIDLE_expires k _ x hT hx (by rw [h4, hb]; omega)]
        rfl
  · intro m i hr hs
    rw [mainStep_IDLE k e m i hr hs]
    cases hc : i.command with
    | none =>
      by_cases hz : m.idleTimeout - 1 = 0
      · rw [stepIDLE_expires k m i hT hc hz]
        simp [hz]
      · rw [stepIDLE_silent k m i hT hc hz]
        simp [hz]
    | some c =>
      have hne : (getAction m.confirm_erase (some c)).1 ≠ XmodemState_t.IDLE := by
        intro h
        have := (getAction_eq_IDLE m.confirm_erase (some c)).1 h
        cases this
      have hg : ∀ x ∈ (getAction m.confirm_erase (some c)).2,
          x ≠ Action.reset_resetWithReason ResetReason.BOOTLOADER_RESET_REASON_TIMEOUT := by
        intro x hx
        unfold getAction at hx
        simp only at hx
        split_ifs at hx <;> simp at hx
        subst hx
        simp
      unfold stepIDLE
      simp only [hc, hT, if_true, hne, if_false]
      constructor
      · intro hmem
        exact absurd rfl (hg _ hmem)
      · rintro ⟨h, -⟩
        cases h
  · intro m i c hr hs hc
    have hne : (getAction m.confirm_erase (some c)).1 ≠ XmodemState_t.IDLE := by
      intro h
      have := (getAction_eq_IDLE m.confirm_erase (some c)).1 h
      cases this
    have hg : ∀ reason, ∀ x ∈ (getAction m.confirm_erase (some c)).2,
        x ≠ Action.reset_resetWithReason reason := by
      intro reason x hx
      unfold getAction at hx
      simp only at hx
      split_ifs at hx <;> simp at hx
      subst hx
      simp
    rw [mainStep_IDLE k e m i hr hs]
    unfold stepIDLE
    simp only [hc, hT, if_true, hne, if_false]
    exact ⟨trivial, trivial, hr, fun reason hmem => hg reason _ hmem rfl⟩

/-- Witness for C16: with the sample budget of three polls, three polls without input from
the start of the loop issue the timeout reset. -/
theorem idle_timeout_budget_witness :
    (runFrom sampleConstants (sampleEnv 0)
        (mainInit sampleConstants zeroProps () () (fun _ => 0xFF))
        [silence, silence, silence]).2 =
      [Action.reset_resetWithReason ResetReason.BOOTLOADER_RESET_REASON_TIMEOUT] :=
  (((idle_timeout_budget sampleConstants (sampleEnv 0) (by decide)).2.1
    (mainInit sampleConstants zeroProps () () (fun _ => 0xFF)) [silence, silence, silence]
    rfl rfl rfl (by decide)).2) (by decide)

/-! ## C17: the pending confirmation is sticky -/

/-- C17, counterexample to the claim as stated. From the start of the loop: '4' is
received and confirmed (the flag is set, the machine is back in `IDLE`), then '2' is
received while no verified image is present.  The `BOOT` step calls
`reset_resetWithReason` with reason BADIMAGE, which does not come back: control has left
the loop.  The 'y' that follows is not acted upon, and the machine is never in
`ERASE_NVM`. -/
theorem confirm_erase_counterexample :
    (bootloader_xmodem_communication_main sampleConstants (sampleEnv 0) zeroProps () ()
        (fun _ => 0xFF) [key 52, silence]).1.confirm_erase = true ∧
      (bootloader_xmodem_communication_main sampleConstants (sampleEnv 0) zeroProps () ()
        (fun _ => 0xFF) [key 52, silence]).1.state = XmodemState_t.IDLE ∧
      (bootloader_xmodem_communication_main sampleConstants (sampleEnv 0) zeroProps () ()
        (fun _ => 0xFF) [key 52, silence, key 50, silence]).2 =
        [Action.uart_sendBuffer (cstr "\r\nAre you sure? (y/n) > "),
          Action.reset_resetWithReason ResetReason.BOOTLOADER_RESET_REASON_BADIMAGE] ∧
      (bootloader_xmodem_communication_main sampleConstants (sampleEnv 0) zeroProps () ()
        (fun _ => 0xFF) [key 52, silence, key 50, silence]).1.status = Status.exited ∧
      (∀ n, n < 6 →
        (bootloader_xmodem_communication_main sampleConstants (sampleEnv 0) zeroProps () ()
          (fun _ => 0xFF)
          ([key 52, silence, key 50, silence, key 121].take n)).1.state ≠
            XmodemState_t.ERASE_NVM) := by
  decide

/-- C17 as amended. While control stays in the loop (no reset or commit call has taken it
away): (a) after an `IDLE` step that receives '4', the `CONFIRM_ERASE_NVM` step sets
`confirm_erase` and returns to `IDLE`; (b) a set flag stays set through every step that is
not an `ERASE_NVM` step, whatever is received; (c) hence it is still set after any run
that is still in the loop and none of whose steps is an `ERASE_NVM` step; (d) a step that
clears it is an `ERASE_NVM` step; (e) with the flag set, an `IDLE` step that receives 'y'
enters `ERASE_NVM`; (f) hence after '4' and its confirmation step, any further steps
without an `ERASE_NVM` step that leave the machine in the loop and in `IDLE`, and then 'y',
the machine enters `ERASE_NVM`; (g) with an 8 KiB flash page the `ERASE_NVM` step clears
the flag and goes to `MENU`, and a 'y' received by the `IDLE` step after the menu then
yields `MENU`, not `ERASE_NVM`. -/
theorem confirm_erase_is_sticky {C P : Type} (k : Constants) (e : Env C P) :
    (∀ (m : Machine C P) (i j : Input), m.status = Status.running →
      m.state = XmodemState_t.IDLE → i.command = some 52 →
      (mainStep k e m i).1.state = XmodemState_t.CONFIRM_ERASE_NVM ∧
      (runFrom k e m [i, j]).1.confirm_erase = true ∧
      (runFrom k e m [i, j]).1.state = XmodemState_t.IDLE ∧
      (runFrom k e m [i, j]).1.status = Status.running) ∧
    (∀ (m : Machine C P) (i : Input), m.status = Status.running →
      m.state ≠ XmodemState_t.ERASE_NVM →
      m.confirm_erase = true → (mainStep k e m i).1.confirm_erase = true) ∧
    (∀ (m : Machine C P) (is : List Input), m.confirm_erase = true →
      (runFrom k e m is).1.status = Status.running →
      (∀ n, n < is.length → (runFrom k e m (is.take n)).1.state ≠ XmodemState_t.ERASE_NVM) →
      (runFrom k e m is).1.confirm_erase = true) ∧
    (∀ (m : Machine C P) (i : Input), m.confirm_erase = true →
      (mainStep k e m i).1.confirm_erase = false →
      m.state = XmodemState_t.ERASE_NVM ∧ m.status = Status.running) ∧
    (∀ (m : Machine C P) (i : Input), m.status = Status.running →
      m.state = XmodemState_t.IDLE → m.confirm_erase = true → i.command = some 121 →
      (mainStep k e m i).1.state = XmodemState_t.ERASE_NVM) ∧
    (∀ (m : Machine C P) (i4 i5 : Input) (is : List Input) (iy : Input),
      m.status = Status.running → m.state = XmodemState_t.IDLE →
      i4.command = some 52 → iy.command = some 121 →
      (∀ n, n < is.length →
        (runFrom k e m (i4 :: i5 :: is.take n)).1.state ≠ XmodemState_t.ERASE_NVM) →
      (runFrom k e m (i4 :: i5 :: is)).1.status = Status.running →
      (runFrom k e m (i4 :: i5 :: is)).1.state = XmodemState_t.IDLE →
      (runFrom k e m (i4 :: i5 :: is)).1.confirm_erase = true ∧
      (runFrom k e m (i4 :: i5 :: is ++ [iy])).1.state = XmodemState_t.ERASE_NVM) ∧
    (k.FLASH_PAGE_SIZE = 0x2000 →
      ∀ (m : Machine C P) (i1 i2 i3 : Input), m.status = Status.running →
        m.state = XmodemState_t.ERASE_NVM → i3.command = some 121 →
        (mainStep k e m i1).1.confirm_erase = false ∧
        (mainStep k e m i1).1.state = XmodemState_t.MENU ∧
        (runFrom k e m [i1, i2]).1.state = XmodemState_t.IDLE ∧
        (runFrom k e m [i1, i2, i3]).1.state = XmodemState_t.MENU ∧
        (runFrom k e m [i1, i2, i3]).1.confirm_erase = false) := by
  have hset : ∀ (m : Machine C P) (i j : Input), m.status = Status.running →
      m.state = XmodemState_t.IDLE → i.command = some 52 →
      (mainStep k e m i).1.state = XmodemState_t.CONFIRM_ERASE_NVM ∧
      (runFrom k e m [i, j]).1.confirm_erase = true ∧
      (runFrom k e m [i, j]).1.state = XmodemState_t.IDLE ∧
      (runFrom k e m [i, j]).1.status = Status.running := by
    intro m i j hr hs hc
    have hne : (getAction m.confirm_erase (some 52)).1 ≠ XmodemState_t.IDLE := by
      intro h
      have := (getAction_eq_IDLE m.confirm_erase (some 52)).1 h
      cases this
    have h1 : (mainStep k e m i).1.state = XmodemState_t.CONFIRM_ERASE_NVM ∧
        (mainStep k e m i).1.status = Status.running := by
      rw [mainStep_IDLE k e m i hr hs]
      refine ⟨?_, ?_⟩
      · rw [stepIDLE_state]
        exact (getAction_eq_CONFIRM_ERASE_NVM _ _).2 hc
      · unfold stepIDLE
        simp only [hc, hne, if_false]
        split_ifs <;> exact hr
    obtain ⟨ha, hb⟩ := h1
    refine ⟨ha, ?_, ?_, ?_⟩
    · simp only [runFrom_cons, runFrom_nil]
      rw [mainStep_CONFIRM_ERASE_NVM k e _ j hb ha]
      rfl
    · simp only [runFrom_cons, runFrom_nil]
      rw [mainStep_CONFIRM_ERASE_NVM k e _ j hb ha]
      rfl
    · simp only [runFrom_cons, runFrom_nil]
      rw [mainStep_CONFIRM_ERASE_NVM k e _ j hb ha]
      exact hb
  have hstep : ∀ (m : Machine C P) (i : Input), m.state ≠ XmodemState_t.ERASE_NVM →
      m.confirm_erase = true → (mainStep k e m i).1.confirm_erase = true := by
    intro m i hne hce
    by_cases hc : m.state = XmodemState_t.CONFIRM_ERASE_NVM
    · by_cases hr : m.status = Status.running
      · rw [mainStep_CONFIRM_ERASE_NVM k e m i hr hc]
        rfl
      · rw [mainStep_not_running k e m i hr]
        exact hce
    · rw [mainStep_confirm_erase_unchanged k e m i hc hne]
      exact hce
  have hrun : ∀ (m : Machine C P) (is : List Input), m.confirm_erase = true →
      (∀ n, n < is.length → (runFrom k e m (is.take n)).1.state ≠ XmodemState_t.ERASE_NVM) →
      (runFrom k e m is).1.confirm_erase = true := by
    intro m is hce
    induction is using List.reverseRecOn with
    | nil => intro _; rw [runFrom_nil]; exact hce
    | append_singleton is x ih =>
      intro hno
      have hprev : (runFrom k e m is).1.confirm_erase = true := by
        apply ih
        intro n hn
        have h := hno n (by simp only [List.length_append, List.length_singleton]; omega)
        rw [List.take_append_of_le_length (by omega)] at h
        exact h
      have hlast : (runFrom k e m is).1.state ≠ XmodemState_t.ERASE_NVM := by
        have h := hno is.length (by simp)
        rw [List.take_left'] at h
        · exact h
        · rfl
      rw [runFrom_snoc]
      exact hstep _ x hlast hprev
  have hyes : ∀ (m : Machine C P) (i : Input), m.status = Status.running →
      m.state = XmodemState_t.IDLE → m.confirm_erase = true → i.command = some 121 →
      (mainStep k e m i).1.state = XmodemState_t.ERASE_NVM := by
    intro m i hr hs hce hc
    rw [mainStep_IDLE k e m i hr hs, stepIDLE_state]
    exact (getAction_eq_ERASE_NVM _ _).2 ⟨hce, hc⟩
  refine ⟨hset, fun m i _ => hstep m i, fun m is hce _ => hrun m is hce, ?_, hyes, ?_, ?_⟩
  · intro m i hce hclear
    by_cases hs : m.state = XmodemState_t.ERASE_NVM
    · refine ⟨hs, ?_⟩
      by_contra hr
      rw [mainStep_not_running k e m i hr, hce] at hclear
      cases hclear
    · rw [hstep m i hs hce] at hclear
      cases hclear
  · intro m i4 i5 is iy hr hs h4 hy hno hrun2 hidle
    obtain ⟨-, hflag, -, -⟩ := hset m i4 i5 hr hs h4
    have hsplit : ∀ js : List Input,
        runFrom k e m (i4 :: i5 :: js) =
          ((runFrom k e (runFrom k e m [i4, i5]).1 js).1,
            (runFrom k e m [i4, i5]).2 ++ (runFrom k e (runFrom k e m [i4, i5]).1 js).2) := by
      intro js
      have h := runFrom_append k e m [i4, i5] js
      simpa using h
    have hce : (runFrom k e m (i4 :: i5 :: is)).1.confirm_erase = true := by
      rw [hsplit]
      apply hrun _ is hflag
      intro n hn
      have h := hno n hn
      rw [hsplit] at h
      exact h
    refine ⟨hce, ?_⟩
    have happ : i4 :: i5 :: is ++ [iy] = (i4 :: i5 :: is) ++ [iy] := rfl
    rw [happ, runFrom_snoc]
    exact hyes _ iy hrun2 hidle hce hy
  · intro hps m i1 i2 i3 hr hs hc
    have h1 : (mainStep k e m i1).1.confirm_erase = false ∧
        (mainStep k e m i1).1.state = XmodemState_t.MENU ∧
        (mainStep k e m i1).1.status = Status.running := by
      rw [mainStep_ERASE_NVM k e m i1 hr hs, stepERASE_NVM_8k k m hps]
      exact ⟨rfl, rfl, hr⟩
    obtain ⟨ha, hb, hc1⟩ := h1
    have h2 : (mainStep k e (mainStep k e m i1).1 i2).1.confirm_erase = false ∧
        (mainStep k e (mainStep k e m i1).1 i2).1.state = XmodemState_t.IDLE ∧
        (mainStep k e (mainStep k e m i1).1 i2).1.status = Status.running := by
      rw [mainStep_MENU k e _ i2 hc1 hb]
      exact ⟨ha, rfl, hc1⟩
    obtain ⟨ha2, hb2, hc2⟩ := h2
    have h3 : (mainStep k e (mainStep k e (mainStep k e m i1).1 i2).1 i3).1.state =
          XmodemState_t.MENU ∧
        (mainStep k e (mainStep k e (mainStep k e m i1).1 i2).1 i3).1.confirm_erase =
          false := by
      rw [mainStep_IDLE k e _ i3 hc2 hb2, stepIDLE_state, stepIDLE_confirm_erase, ha2, hc]
      exact ⟨rfl, rfl⟩
    refine ⟨ha, hb, ?_, ?_, ?_⟩
    · simp only [runFrom_cons, runFrom_nil]
      exact hb2
    · simp only [runFrom_cons, runFrom_nil]
      exact h3.1
    · simp only [runFrom_cons, runFrom_nil]
      exact h3.2

set_option maxRecDepth 20000 in
/-- Witness for C17 as amended: in a sample run from the start of the loop, '4' is
confirmed, then the menu is requested, a transfer is started and cancelled, a boot attempt
fails and comes back, and only then 'y' arrives: the flag is still set and the machine
enters `ERASE_NVM`. -/
theorem confirm_erase_is_sticky_witness :
    (bootloader_xmodem_communication_main sampleConstants (sampleEnv 0) zeroProps () ()
        (fun _ => 0xFF)
        [key 52, silence, key 51, silence, key 49, silence, byteIn 1, byteIn 4, silence,
          silence, key 50, { silence with callReturns := true }, silence]).1.confirm_erase =
        true ∧
      (bootloader_xmodem_communication_main sampleConstants (sampleEnv 0) zeroProps () ()
        (fun _ => 0xFF)
        [key 52, silence, key 51, silence, key 49, silence, byteIn 1, byteIn 4, silence,
          silence, key 50, { silence with callReturns := true }, silence,
          key 121]).1.state = XmodemState_t.ERASE_NVM :=
  (confirm_erase_is_sticky sampleConstants (sampleEnv 0)).2.2.2.2.2.1
    (mainInit sampleConstants zeroProps () () (fun _ => 0xFF)) (key 52) silence
    [key 51, silence, key 49, silence, byteIn 1, byteIn 4, silence,
      silence, key 50, { silence with callReturns := true }, silence]
    (key 121) rfl rfl rfl rfl (by decide) (by decide) (by decide)

end XmodemUart
